import Mathlib

/-!
Shallow embedding of the RepoSpark repository-provisioning core.

The embedding follows the Python sources:
  - `src/repospark/workers/repository_worker.py` (`RepositoryWorker.run`)
  - `src/repospark/core/git_operations.py` (`GitOperations`)
  - `src/repospark/core/github_api.py` (`GitHubAPI`)
  - `src/repospark/core/scaffold_generator.py` (`ScaffoldGenerator`)

External effects (subprocess calls, the filesystem, the cancellation flag)
are modelled by an explicit environment that fixes the outcome of every
external operation; the worker is a pure function from a configuration and
such an environment to the list of emitted events (progress signals,
external calls, and `finished` signals).
-/

/-- Outcome of a Python operation that either completes normally or raises
an exception carrying a message. -/
inductive ExcOut where
  | ok
  | exc (msg : String)
deriving DecidableEq

/-- The external operations the worker can invoke, recorded in the trace. -/
inductive Op where
  | mkdirsOp
  | chdirOp
  | scaffoldOp
  | createRepoOp
  | customGitignoreOp
  | fetchGitignoreOp
  | gitInitOp
  | commitOp
  | remoteOp
  | pushOp
  | topicsOp
  | chdirBackOp
deriving DecidableEq

/-- Events observable from one worker run: progress signals, external
operation invocations, and terminal `finished` signals. -/
inductive Event where
  | progress (msg : String)
  | call (op : Op)
  | finished (success : Bool) (msg : String)
deriving DecidableEq

/-- The configuration dictionary handed to `RepositoryWorker.__init__`,
with the fields `RepositoryWorker.run` reads. -/
structure Config where
  repo_name : String
  repo_location : String
  visibility : String
  description : String
  gitignore_template : String
  license : String
  topics : List String
  username : String
  remote_type : String
  create_scaffold : Bool
  create_editorconfig : Bool
  readme_content : String
deriving DecidableEq

/-- The environment of one worker run: the value read by the k-th
cancellation-flag check, and the outcome of each external operation.
Adapter methods that return a boolean (they catch their own subprocess
errors) are `Bool`; raw OS calls and the scaffold/gitignore writers may
raise, hence `ExcOut`. -/
structure Env where
  cancel : Nat → Bool
  locExists : Bool
  mkdirs : ExcOut
  chdirIn : ExcOut
  scaffold : ExcOut
  createRepo : Bool
  customGitignore : ExcOut
  fetchGitignore : ExcOut
  gitExists : Bool
  gitInit : Bool
  commit : Bool
  addRemote : Bool
  push : Bool
  setTopics : Bool
  chdirBack : ExcOut

namespace RepositoryWorker

/-- The `custom_gitignore_templates` list from `RepositoryWorker.run`. -/
def customGitignoreTemplates : List String :=
  ["C++", "C#", "Dart", "Go", "Java", "JavaScript", "Kotlin", "PHP", "R",
   "Ruby", "Rust", "Scala", "Swift", "TypeScript"]

/-- The event emitted by `self.finished.emit(False, "Operation cancelled")`. -/
def cancelledEvent : Event := Event.finished false "Operation cancelled"

/-- The success message of the terminal `finished` emission. -/
def successMessage (cfg : Config) : String :=
  "Repository '" ++ cfg.repo_name ++ "' created successfully!"

/-- The gitignore-handling block of `RepositoryWorker.run` (lines 161-168):
custom templates are synthesized locally, non-empty non-custom templates are
fetched; either writer may raise (second component). -/
def gitignoreStage (cfg : Config) (env : Env) : List Event × Option String :=
  if cfg.gitignore_template ∈ customGitignoreTemplates then
    ([Event.progress ("Creating custom .gitignore for " ++ cfg.gitignore_template ++ "..."),
      Event.call Op.customGitignoreOp],
     match env.customGitignore with
     | ExcOut.ok => none
     | ExcOut.exc m => some m)
  else if cfg.gitignore_template ≠ "" then
    ([Event.progress ("Fetching .gitignore template for " ++ cfg.gitignore_template ++ "..."),
      Event.call Op.fetchGitignoreOp],
     match env.fetchGitignore with
     | ExcOut.ok => none
     | ExcOut.exc m => some m)
  else ([], none)

/-- The topics block of `RepositoryWorker.run` (lines 215-220): attempted
only for a non-empty topics list; a `false` return from `set_topics` emits a
warning progress event and nothing else. -/
def topicsStage (cfg : Config) (env : Env) : List Event :=
  if cfg.topics ≠ [] then
    [Event.progress "Setting repository topics...", Event.call Op.topicsOp] ++
      (if env.setTopics then [] else [Event.progress "Warning: Failed to set topics"])
  else []

/-- Cancellation check before the topics block, then the topics block and the
terminal success emission (`run` lines 212-224). `k` is the index of this
cancellation check. -/
def topicsStep (cfg : Config) (env : Env) (k : Nat) : List Event :=
  if env.cancel k then [cancelledEvent]
  else topicsStage cfg env ++ [Event.finished true (successMessage cfg)]

/-- Push step (`run` lines 203-209) followed by the rest of the pipeline. -/
def pushStep (cfg : Config) (env : Env) (k : Nat) : List Event :=
  if env.cancel k then [cancelledEvent]
  else
    [Event.progress "Pushing to GitHub...", Event.call Op.pushOp] ++
      (if env.push then topicsStep cfg env (k + 1)
       else [Event.finished false "Failed to push to GitHub"])

/-- Remote step (`run` lines 190-200) followed by the rest of the pipeline. -/
def remoteStep (cfg : Config) (env : Env) (k : Nat) : List Event :=
  if env.cancel k then [cancelledEvent]
  else
    [Event.progress "Adding remote origin...", Event.call Op.remoteOp] ++
      (if env.addRemote then pushStep cfg env (k + 1)
       else [Event.finished false "Failed to add remote origin"])

/-- Commit step (`run` lines 181-187) followed by the rest of the pipeline. -/
def commitStep (cfg : Config) (env : Env) (k : Nat) : List Event :=
  if env.cancel k then [cancelledEvent]
  else
    [Event.progress "Adding and committing files...", Event.call Op.commitOp] ++
      (if env.commit then remoteStep cfg env (k + 1)
       else [Event.finished false "Failed to add and commit files"])

/-- Init step (`run` lines 171-178): skipped when `.git` already exists,
followed by the rest of the pipeline. -/
def initStep (cfg : Config) (env : Env) (k : Nat) : List Event :=
  if env.cancel k then [cancelledEvent]
  else if env.gitExists then commitStep cfg env (k + 1)
  else
    [Event.progress "Initializing git repository...", Event.call Op.gitInitOp] ++
      (if env.gitInit then commitStep cfg env (k + 1)
       else [Event.finished false "Failed to initialize git repository"])

/-- Everything from the cancellation check before `create_repository`
(`run` line 141) to the terminal success emission. `k` is the index of that
check. A `some` second component is an exception escaping the inner body. -/
def afterScaffold (cfg : Config) (env : Env) (k : Nat) : List Event × Option String :=
  if env.cancel k then ([cancelledEvent], none)
  else
    let e1 := [Event.progress "Creating GitHub repository...", Event.call Op.createRepoOp]
    if env.createRepo then
      if env.cancel (k + 1) then (e1 ++ [cancelledEvent], none)
      else
        let g := gitignoreStage cfg env
        match g.2 with
        | some m => (e1 ++ g.1, some m)
        | none => (e1 ++ g.1 ++ initStep cfg env (k + 2), none)
    else (e1 ++ [Event.finished false "Failed to create GitHub repository"], none)

/-- The body of the inner `try` of `RepositoryWorker.run` (lines 109-224),
starting at the scaffold block. A `some` second component is an exception
escaping the body (to be converted by the inner `except` handler). -/
def innerBody (cfg : Config) (env : Env) : List Event × Option String :=
  if cfg.create_scaffold then
    if env.cancel 1 then ([cancelledEvent], none)
    else
      let e0 := [Event.progress "Creating project scaffold...", Event.call Op.scaffoldOp]
      match env.scaffold with
      | ExcOut.exc m => (e0, some m)
      | ExcOut.ok =>
        let r := afterScaffold cfg env 2
        (e0 ++ r.1, r.2)
  else afterScaffold cfg env 1

/-- The whole of `RepositoryWorker.run`: the initial cancellation check, the
directory preparation, the inner `try` wrapped by its `except` handler and
the `finally` restore of the working directory, and the outer `except`
handler that catches exceptions raised before the inner `try` or by the
`finally` restore itself. -/
def run (cfg : Config) (env : Env) : List Event :=
  if env.cancel 0 then [cancelledEvent]
  else
    let preDir : List Event := if env.locExists then [] else [Event.call Op.mkdirsOp]
    let mkOut : ExcOut := if env.locExists then ExcOut.ok else env.mkdirs
    match mkOut with
    | ExcOut.exc m => preDir ++ [Event.finished false ("Error: " ++ m)]
    | ExcOut.ok =>
      match env.chdirIn with
      | ExcOut.exc m => preDir ++ [Event.call Op.chdirOp, Event.finished false ("Error: " ++ m)]
      | ExcOut.ok =>
        let body := innerBody cfg env
        let afterInner : List Event :=
          match body.2 with
          | some m => body.1 ++ [Event.finished false ("Error: " ++ m)]
          | none => body.1
        let withRestore := afterInner ++ [Event.call Op.chdirBackOp]
        match env.chdirBack with
        | ExcOut.exc m =>
          preDir ++ [Event.call Op.chdirOp] ++ withRestore ++
            [Event.finished false ("Error: " ++ m)]
        | ExcOut.ok => preDir ++ [Event.call Op.chdirOp] ++ withRestore

end RepositoryWorker

/-- Outcome of one `subprocess.run` invocation: normal completion with
captured stdout, `CalledProcessError` with captured stderr (`None` is
modelled as the empty string), or `FileNotFoundError` when the executable
is not on the PATH. -/
inductive CmdOut where
  | ok (stdout : String)
  | err (stderr : String)
  | fnf
deriving DecidableEq

/-- Whether a command completed normally. -/
def CmdOut.isOk : CmdOut → Bool
  | CmdOut.ok _ => true
  | _ => false

/-- Whether the character list `needle` occurs as a contiguous sublist of
`hay` (the semantics of the Python `in` test on strings). -/
def hasSubList (needle : List Char) : List Char → Bool
  | [] => needle.isEmpty
  | c :: rest => needle.isPrefixOf (c :: rest) || hasSubList needle rest

/-- Python `needle in hay` on strings. -/
def strContainsSub (needle hay : String) : Bool :=
  hasSubList needle.data hay.data

/-- Python `str.lower()`, as a character-wise map. -/
def strToLower (s : String) : String :=
  String.mk (s.data.map Char.toLower)

namespace GitOperations

/-- The calls `GitOperations.add_remote` can issue to git. -/
inductive GitCall where
  | remoteAdd (url : String)
  | remoteSetUrl (url : String)
deriving DecidableEq

/-- Outcomes of the two git commands `add_remote` may run. -/
structure RemoteEnv where
  addCmd : CmdOut
  setUrlCmd : CmdOut
deriving DecidableEq

/-- The remote URL built by `GitOperations.add_remote`. -/
def remoteUrl (username repo_name remote_type : String) : String :=
  if remote_type = "ssh" then
    "git@github.com:" ++ username ++ "/" ++ repo_name ++ ".git"
  else
    "https://github.com/" ++ username ++ "/" ++ repo_name ++ ".git"

/-- `GitOperations.add_remote` (git_operations.py lines 72-114): try
`git remote add origin`; on a `CalledProcessError` whose stderr mentions
that the remote already exists, fall back to `git remote set-url origin`,
returning the fallback's success; any other `CalledProcessError` on the
add, and a `FileNotFoundError` on the add, return `False`. A
`FileNotFoundError` raised by the set-url fallback occurs inside the
`except CalledProcessError` handler, where the inner `try` catches only
`CalledProcessError` and the sibling `except FileNotFoundError` clause of
the outer `try` does not apply, so it escapes the function (modelled as
`Except.error`). The second component records the git commands attempted. -/
def add_remote (username repo_name remote_type : String) (env : RemoteEnv) :
    Except String Bool × List GitCall :=
  let url := remoteUrl username repo_name remote_type
  match env.addCmd with
  | CmdOut.ok _ => (Except.ok true, [GitCall.remoteAdd url])
  | CmdOut.err stderr =>
    if strContainsSub "already exists" (strToLower stderr) then
      match env.setUrlCmd with
      | CmdOut.ok _ =>
        (Except.ok true, [GitCall.remoteAdd url, GitCall.remoteSetUrl url])
      | CmdOut.err _ =>
        (Except.ok false, [GitCall.remoteAdd url, GitCall.remoteSetUrl url])
      | CmdOut.fnf =>
        (Except.error "FileNotFoundError: git",
         [GitCall.remoteAdd url, GitCall.remoteSetUrl url])
    else (Except.ok false, [GitCall.remoteAdd url])
  | CmdOut.fnf => (Except.ok false, [GitCall.remoteAdd url])

/-- `GitOperations.get_current_branch` (git_operations.py lines 139-154):
on success return the trimmed stdout of `git symbolic-ref --short HEAD`; a
`CalledProcessError` is caught and mapped to `"main"`; a
`FileNotFoundError` (git not on the PATH) is NOT caught and escapes the
function, modelled as `Except.error`. -/
def get_current_branch (branchCmd : CmdOut) : Except String String :=
  match branchCmd with
  | CmdOut.ok out => Except.ok out.trim
  | CmdOut.err _ => Except.ok "main"
  | CmdOut.fnf => Except.error "FileNotFoundError: git"

end GitOperations

namespace GitHubAPI

/-- The mutable class-level state of `GitHubAPI`: the
`_gitignore_templates_cache` field. -/
structure ApiState where
  gitignoreTemplatesCache : Option (List String)
deriving DecidableEq

/-- Outcome of the `gh api gitignore/templates` fetch: a parsed list, or
any of the caught failures (`CalledProcessError`, `JSONDecodeError`,
`TimeoutExpired`). -/
inductive FetchOut where
  | ok (templates : List String)
  | failure
deriving DecidableEq

/-- `GitHubAPI.get_gitignore_templates` (github_api.py lines 48-90): return
the cache when populated; otherwise fetch, cache on success, and on failure
fall back to the cache if present, else the empty list. Returns the result
together with the updated class state. -/
def get_gitignore_templates (st : ApiState) (o : FetchOut) : List String × ApiState :=
  match st.gitignoreTemplatesCache with
  | some ts => (ts, st)
  | none =>
    match o with
    | FetchOut.ok ts => (ts, { gitignoreTemplatesCache := some ts })
    | FetchOut.failure =>
      match st.gitignoreTemplatesCache with
      | some ts => (ts, st)
      | none => ([], st)

/-- `GitHubAPI.set_topics` (github_api.py lines 134-177): an empty topics
list returns `True` immediately without running any `gh` command; otherwise
the `gh api -X PATCH` outcome decides the result. The second component
records whether the external command was invoked. -/
def set_topics (username repo_name : String) (topics : List String) (cmd : CmdOut) :
    Bool × Bool :=
  if topics = [] then (true, false)
  else
    match cmd with
    | CmdOut.ok _ => (true, true)
    | CmdOut.err _ => (false, true)
    | CmdOut.fnf => (false, true)

end GitHubAPI

/-- A flat model of the slice of the filesystem the scaffold writer
touches: the set of created directories (as an ordered list without a
fixed-order invariant) and the files as an association list from path to
content. -/
structure FS where
  dirs : List String
  files : List (String × String)
deriving DecidableEq

/-- `os.makedirs(d, exist_ok=True)` on the directory list: a no-op when the
directory already exists. -/
def addDir (d : String) (l : List String) : List String :=
  if d ∈ l then l else l ++ [d]

/-- Overwrite-or-create semantics of `open(p, "w")` followed by a full
write on an association list of files. -/
def setFile : List (String × String) → String → String → List (String × String)
  | [], p, c => [(p, c)]
  | (q, v) :: rest, p, c =>
    if q = p then (p, c) :: rest else (q, v) :: setFile rest p c

/-- `os.makedirs(d, exist_ok=True)` on the filesystem model. -/
def FS.makedirs (fs : FS) (d : String) : FS :=
  { fs with dirs := addDir d fs.dirs }

/-- Writing the file at `p` with content `c` (truncate + write). -/
def FS.writeFile (fs : FS) (p c : String) : FS :=
  { fs with files := setFile fs.files p c }

namespace ScaffoldGenerator

/-- The default README content of `ScaffoldGenerator.create_scaffold`. -/
def defaultReadme (repo_name : String) : String :=
  "# " ++ repo_name ++ "\n\nProject initialized using RepoSpark.\n"

/-- Content of `docs/index.md`. -/
def docsIndexContent : String :=
  "# Documentation\n\nProject documentation goes here.\n"

/-- Content of `tests/test_placeholder.txt`. -/
def testPlaceholderContent : String :=
  "# Placeholder for tests\n"

/-- Content of `CHANGELOG.md`. -/
def changelogContent : String :=
  "# Changelog\n\nAll notable changes to this project will be documented in this file, in reverse chronological order by release.\n\nThe format is based on [Keep a Changelog](https://keepachangelog.com),\nand this project adheres to [Semantic Versioning](https://semver.org).\n\n## [Unreleased]\n\n### Added\n\n### Changed\n\n### Deprecated\n\n### Removed\n\n### Fixed\n\n## [1.0.0] - YYYY-MM-DD\n\n### Added\n\n### Changed\n\n### Deprecated\n\n### Removed\n\n### Fixed\n"

/-- Content of `CONTRIBUTING.md`. -/
def contributingContent : String :=
  "# Contributing\n\nThank you for considering contributing to this project!\n\n## How to Contribute\n- Fork this repository\n- Create a new branch\n- Make your changes\n- Submit a pull request\n\nPlease follow the coding conventions and include tests if applicable.\n\nCoding conventions for this project are located in [STYLEGUIDE.md](docs/STYLEGUIDE.md)\n"

/-- Content of `CODE_OF_CONDUCT.md`. -/
def codeOfConductContent : String :=
  "# Code of Conduct\n\nThis project follows the [Contributor Covenant](https://www.contributor-covenant.org/) Code of Conduct.\n\nFor any issues, please contact the maintainers.\n"

/-- Content of `SECURITY.md`. -/
def securityContent : String :=
  "# Security Policy\n\nIf you discover a security vulnerability, please report it by contacting the maintainers directly.\nDo not file public issues for security problems.\n"

/-- Content of `.github/ISSUE_TEMPLATE.md`. -/
def issueTemplateContent : String :=
  "<!-- Describe the bug or feature request here -->\n\n**Steps to reproduce:**\n1.\n2.\n3.\n\n**Expected behavior:**\n\n**Actual behavior:**\n"

/-- Content of `.github/PULL_REQUEST_TEMPLATE.md`. -/
def prTemplateContent : String :=
  "<!-- Provide a general summary of your changes in the title above -->\n\n## Description\n\n## Related Issue\n\n## Motivation and Context\n\n## Screenshots (if appropriate):\n\n## Types of Changes\n- [ ] Bug fix\n- [ ] New feature\n- [ ] Breaking change\n- [ ] Documentation\n\n## Checklist:\n- [ ] My code follows the code style of this project\n- [ ] My change requires a change to the documentation\n- [ ] I have updated the documentation accordingly\n"

/-- Content of `.editorconfig`. -/
def editorconfigContent : String :=
  "# EditorConfig helps maintain consistent coding styles\nroot = true\n\n[*]\ncharset = utf-8\nindent_style = space\nindent_size = 2\nend_of_line = lf\ninsert_final_newline = true\ntrim_trailing_whitespace = true\n"

/-- Content of `.gitattributes`. -/
def gitattributesContent : String :=
  "# Ensure consistent Git behavior\n* text=auto\n"

/-- `ScaffoldGenerator.create_scaffold` (scaffold_generator.py lines
29-196), in source order: four `os.makedirs(..., exist_ok=True)` calls,
then each fixed file opened for overwrite, with `.editorconfig` written
only when requested. The Python `if readme_content:` truthiness test on an
optional string is modelled as a non-emptiness test. -/
def create_scaffold (repo_name : String) (create_editorconfig : Bool)
    (readme_content : String) (fs : FS) : FS :=
  let fs := fs.makedirs "src"
  let fs := fs.makedirs "tests"
  let fs := fs.makedirs "docs"
  let fs := fs.makedirs ".github"
  let fs :=
    if readme_content ≠ "" then fs.writeFile "README.md" readme_content
    else fs.writeFile "README.md" (defaultReadme repo_name)
  let fs := fs.writeFile "docs/index.md" docsIndexContent
  let fs := fs.writeFile "tests/test_placeholder.txt" testPlaceholderContent
  let fs := fs.writeFile "CHANGELOG.md" changelogContent
  let fs := fs.writeFile "CONTRIBUTING.md" contributingContent
  let fs := fs.writeFile "CODE_OF_CONDUCT.md" codeOfConductContent
  let fs := fs.writeFile "SECURITY.md" securityContent
  let fs := fs.writeFile ".github/ISSUE_TEMPLATE.md" issueTemplateContent
  let fs := fs.writeFile ".github/PULL_REQUEST_TEMPLATE.md" prTemplateContent
  let fs :=
    if create_editorconfig then fs.writeFile ".editorconfig" editorconfigContent
    else fs
  let fs := fs.writeFile ".gitattributes" gitattributesContent
  fs

/-- The directories `create_scaffold` creates, in creation order. -/
def scaffoldDirs : List String := ["src", "tests", "docs", ".github"]

/-- The files `create_scaffold` writes, in write order, as path-content
pairs. -/
def scaffoldFiles (repo_name : String) (create_editorconfig : Bool)
    (readme_content : String) : List (String × String) :=
  [("README.md",
    if readme_content ≠ "" then readme_content else defaultReadme repo_name),
   ("docs/index.md", docsIndexContent),
   ("tests/test_placeholder.txt", testPlaceholderContent),
   ("CHANGELOG.md", changelogContent),
   ("CONTRIBUTING.md", contributingContent),
   ("CODE_OF_CONDUCT.md", codeOfConductContent),
   ("SECURITY.md", securityContent),
   (".github/ISSUE_TEMPLATE.md", issueTemplateContent),
   (".github/PULL_REQUEST_TEMPLATE.md", prTemplateContent)] ++
  (if create_editorconfig then [(".editorconfig", editorconfigContent)] else []) ++
  [(".gitattributes", gitattributesContent)]

end ScaffoldGenerator

/-- Sequential application of `addDir` for a list of directories. -/
def addAll (ds : List String) (l : List String) : List String :=
  ds.foldl (fun acc d => addDir d acc) l

/-- Sequential application of `setFile` for a list of path-content pairs. -/
def writeAll (ps : List (String × String)) (l : List (String × String)) :
    List (String × String) :=
  ps.foldl (fun acc pc => setFile acc pc.1 pc.2) l

/-- Whether the association list binds the key `p`. -/
def containsKey (p : String) : List (String × String) → Bool
  | [] => false
  | (q, _) :: rest => q = p || containsKey p rest

theorem containsKey_setFile_self (l : List (String × String)) (p c : String) :
    containsKey p (setFile l p c) = true := by
  induction l with
  | nil => simp [setFile, containsKey]
  | cons qv rest ih =>
    obtain ⟨q, v⟩ := qv
    by_cases h : q = p <;> simp [setFile, containsKey, h, ih]

theorem containsKey_setFile_of (l : List (String × String)) (p q d : String)
    (h : containsKey p l = true) : containsKey p (setFile l q d) = true := by
  induction l with
  | nil => simp [containsKey] at h
  | cons av rest ih =>
    obtain ⟨a, v⟩ := av
    have h' : a = p ∨ containsKey p rest = true := by simpa [containsKey] using h
    by_cases ha : a = q
    · rw [setFile, if_pos ha, containsKey]
      rcases h' with h1 | h1
      · have hqp : q = p := ha ▸ h1
        simp [hqp]
      · simp [h1]
    · rw [setFile, if_neg ha, containsKey]
      rcases h' with h1 | h1
      · simp [h1]
      · simp [ih h1]

theorem containsKey_writeAll (ps : List (String × String)) (l : List (String × String))
    (p : String) (h : containsKey p l = true) :
    containsKey p (writeAll ps l) = true := by
  induction ps generalizing l with
  | nil => simpa [writeAll] using h
  | cons qc rest ih =>
    simpa [writeAll] using ih _ (containsKey_setFile_of l p qc.1 qc.2 h)

theorem setFile_same (l : List (String × String)) (p c : String) :
    setFile (setFile l p c) p c = setFile l p c := by
  induction l with
  | nil => simp [setFile]
  | cons qv rest ih =>
    obtain ⟨q, v⟩ := qv
    by_cases h : q = p <;> simp [setFile, h, ih]

theorem setFile_comm_of_mem (l : List (String × String)) (p c q d : String)
    (hne : q ≠ p) (hp : containsKey p l = true) :
    setFile (setFile l q d) p c = setFile (setFile l p c) q d := by
  induction l with
  | nil => simp [containsKey] at hp
  | cons av rest ih =>
    obtain ⟨a, v⟩ := av
    have hpq : ¬p = q := fun hh => hne hh.symm
    by_cases hap : a = p
    · have haq : ¬a = q := fun hh => hne (hh ▸ hap)
      rw [setFile, if_neg haq, setFile, if_pos hap,
          setFile, if_pos hap, setFile, if_neg hpq]
    · by_cases haq : a = q
      · rw [setFile, if_pos haq, setFile, if_neg hne,
            setFile, if_neg hap, setFile, if_pos haq]
      · have hrest : containsKey p rest = true := by
          simpa [containsKey, hap] using hp
        rw [setFile, if_neg haq, setFile, if_neg hap,
            setFile, if_neg hap, setFile, if_neg haq, ih hrest]

theorem writeAll_setFile_comm (ps : List (String × String)) (l : List (String × String))
    (p c : String) (hfresh : ∀ pc ∈ ps, pc.1 ≠ p) (hp : containsKey p l = true) :
    writeAll ps (setFile l p c) = setFile (writeAll ps l) p c := by
  induction ps generalizing l with
  | nil => simp [writeAll]
  | cons qd rest ih =>
    obtain ⟨q, d⟩ := qd
    have hq : q ≠ p := hfresh (q, d) (List.mem_cons_self _ _)
    have hrest : ∀ pc ∈ rest, pc.1 ≠ p := fun pc hm => hfresh pc (List.mem_cons_of_mem _ hm)
    show writeAll rest (setFile (setFile l p c) q d) = setFile (writeAll rest (setFile l q d)) p c
    rw [← setFile_comm_of_mem l p c q d hq hp]
    exact ih (setFile l q d) hrest (containsKey_setFile_of l p q d hp)

theorem writeAll_idem (ps : List (String × String)) (l : List (String × String))
    (hkeys : (ps.map Prod.fst).Nodup) :
    writeAll ps (writeAll ps l) = writeAll ps l := by
  induction ps generalizing l with
  | nil => simp [writeAll]
  | cons pc rest ih =>
    obtain ⟨p, c⟩ := pc
    obtain ⟨hhead, htail⟩ := List.nodup_cons.mp hkeys
    have hfresh : ∀ qd ∈ rest, qd.1 ≠ p := by
      intro qd hm he
      exact hhead (by simpa [he] using List.mem_map_of_mem Prod.fst hm)
    show writeAll rest (setFile (writeAll rest (setFile l p c)) p c) =
      writeAll rest (setFile l p c)
    rw [← writeAll_setFile_comm rest (setFile l p c) p c hfresh
          (containsKey_setFile_self l p c),
        setFile_same]
    exact ih (setFile l p c) htail

theorem mem_addDir_self (d : String) (l : List String) : d ∈ addDir d l := by
  by_cases h : d ∈ l <;> simp [addDir, h]

theorem mem_addDir_of (d e : String) (l : List String) (h : d ∈ l) : d ∈ addDir e l := by
  by_cases he : e ∈ l <;> simp [addDir, he, h]

theorem mem_addAll_of (ds : List String) (l : List String) (d : String) (h : d ∈ l) :
    d ∈ addAll ds l := by
  induction ds generalizing l with
  | nil => simpa [addAll] using h
  | cons e rest ih => simpa [addAll] using ih (addDir e l) (mem_addDir_of d e l h)

theorem addDir_eq_of_mem (d : String) (l : List String) (h : d ∈ l) : addDir d l = l := by
  simp [addDir, h]

theorem addAll_idem (ds : List String) (l : List String) :
    addAll ds (addAll ds l) = addAll ds l := by
  induction ds generalizing l with
  | nil => simp [addAll]
  | cons d rest ih =>
    simp only [addAll, List.foldl_cons]
    have hmem : d ∈ List.foldl (fun acc e => addDir e acc) (addDir d l) rest := by
      simpa [addAll] using
        mem_addAll_of rest (addDir d l) d (mem_addDir_self d l)
    rw [addDir_eq_of_mem d _ hmem]
    simpa [addAll] using ih (addDir d l)

theorem addDir_nodup (d : String) (l : List String) (h : l.Nodup) :
    (addDir d l).Nodup := by
  by_cases hm : d ∈ l
  · simpa [addDir, hm] using h
  · simp only [addDir, hm, if_false]
    simpa [List.nodup_append] using ⟨h, hm⟩

theorem addAll_nodup (ds : List String) (l : List String) (h : l.Nodup) :
    (addAll ds l).Nodup := by
  induction ds generalizing l with
  | nil => simpa [addAll] using h
  | cons d rest ih => simpa [addAll] using ih (addDir d l) (addDir_nodup d l h)

theorem create_scaffold_eq (n : String) (e : Bool) (r : String) (fs : FS) :
    ScaffoldGenerator.create_scaffold n e r fs =
      FS.mk (addAll ScaffoldGenerator.scaffoldDirs fs.dirs)
        (writeAll (ScaffoldGenerator.scaffoldFiles n e r) fs.files) := by
  by_cases hr : r = "" <;> cases e <;>
    simp [ScaffoldGenerator.create_scaffold, ScaffoldGenerator.scaffoldDirs,
      ScaffoldGenerator.scaffoldFiles, addAll, writeAll, FS.makedirs, FS.writeFile, hr]

theorem scaffoldFiles_keys_nodup (n : String) (e : Bool) (r : String) :
    ((ScaffoldGenerator.scaffoldFiles n e r).map Prod.fst).Nodup := by
  cases e <;> simp [ScaffoldGenerator.scaffoldFiles]

/-- Whether an event is a terminal `finished` emission. -/
def Event.isTerminal : Event → Bool
  | Event.finished _ _ => true
  | _ => false

/-- The terminal `finished` events of a trace, in order. -/
def terminalEvents (tr : List Event) : List Event :=
  tr.filter Event.isTerminal

/-- Whether an operation is one of the version-control operations
(`git init`, stage/commit, remote add/update, push). -/
def Op.isVcs : Op → Bool
  | Op.gitInitOp => true
  | Op.commitOp => true
  | Op.remoteOp => true
  | Op.pushOp => true
  | _ => false

@[simp]
theorem terminalEvents_nil : terminalEvents [] = [] := rfl

@[simp]
theorem terminalEvents_append (a b : List Event) :
    terminalEvents (a ++ b) = terminalEvents a ++ terminalEvents b := by
  simp [terminalEvents]

@[simp]
theorem terminalEvents_progress_cons (m : String) (tr : List Event) :
    terminalEvents (Event.progress m :: tr) = terminalEvents tr := by
  simp [terminalEvents, Event.isTerminal]

@[simp]
theorem terminalEvents_call_cons (op : Op) (tr : List Event) :
    terminalEvents (Event.call op :: tr) = terminalEvents tr := by
  simp [terminalEvents, Event.isTerminal]

@[simp]
theorem terminalEvents_finished_cons (b : Bool) (m : String) (tr : List Event) :
    terminalEvents (Event.finished b m :: tr) =
      Event.finished b m :: terminalEvents tr := by
  simp [terminalEvents, Event.isTerminal]

theorem gitignoreStage_no_terminal (cfg : Config) (env : Env) :
    terminalEvents (RepositoryWorker.gitignoreStage cfg env).1 = [] := by
  unfold RepositoryWorker.gitignoreStage
  split_ifs <;> simp

theorem topicsStage_no_terminal (cfg : Config) (env : Env) :
    terminalEvents (RepositoryWorker.topicsStage cfg env) = [] := by
  unfold RepositoryWorker.topicsStage
  split_ifs <;> simp

theorem topicsStep_one_terminal (cfg : Config) (env : Env) (k : Nat) :
    (terminalEvents (RepositoryWorker.topicsStep cfg env k)).length = 1 := by
  unfold RepositoryWorker.topicsStep
  split_ifs <;>
    simp [RepositoryWorker.cancelledEvent, topicsStage_no_terminal]

theorem pushStep_one_terminal (cfg : Config) (env : Env) (k : Nat) :
    (terminalEvents (RepositoryWorker.pushStep cfg env k)).length = 1 := by
  unfold RepositoryWorker.pushStep
  split_ifs <;>
    simp [RepositoryWorker.cancelledEvent, topicsStep_one_terminal]

theorem remoteStep_one_terminal (cfg : Config) (env : Env) (k : Nat) :
    (terminalEvents (RepositoryWorker.remoteStep cfg env k)).length = 1 := by
  unfold RepositoryWorker.remoteStep
  split_ifs <;>
    simp [RepositoryWorker.cancelledEvent, pushStep_one_terminal]

theorem commitStep_one_terminal (cfg : Config) (env : Env) (k : Nat) :
    (terminalEvents (RepositoryWorker.commitStep cfg env k)).length = 1 := by
  unfold RepositoryWorker.commitStep
  split_ifs <;>
    simp [RepositoryWorker.cancelledEvent, remoteStep_one_terminal]

theorem initStep_one_terminal (cfg : Config) (env : Env) (k : Nat) :
    (terminalEvents (RepositoryWorker.initStep cfg env k)).length = 1 := by
  unfold RepositoryWorker.initStep
  split_ifs <;>
    simp [RepositoryWorker.cancelledEvent, commitStep_one_terminal]

theorem afterScaffold_one_terminal (cfg : Config) (env : Env) (k : Nat)
    (h : (RepositoryWorker.afterScaffold cfg env k).2 = none) :
    (terminalEvents (RepositoryWorker.afterScaffold cfg env k).1).length = 1 := by
  unfold RepositoryWorker.afterScaffold at h ⊢
  rcases hg : (RepositoryWorker.gitignoreStage cfg env).2 with _ | m <;>
    split_ifs at h ⊢ <;>
      simp_all [RepositoryWorker.cancelledEvent, gitignoreStage_no_terminal,
        initStep_one_terminal]

theorem afterScaffold_no_terminal (cfg : Config) (env : Env) (k : Nat) (m : String)
    (h : (RepositoryWorker.afterScaffold cfg env k).2 = some m) :
    terminalEvents (RepositoryWorker.afterScaffold cfg env k).1 = [] := by
  unfold RepositoryWorker.afterScaffold at h ⊢
  rcases hg : (RepositoryWorker.gitignoreStage cfg env).2 with _ | m' <;>
    split_ifs at h ⊢ <;>
      simp_all [RepositoryWorker.cancelledEvent, gitignoreStage_no_terminal]

theorem innerBody_one_terminal (cfg : Config) (env : Env)
    (h : (RepositoryWorker.innerBody cfg env).2 = none) :
    (terminalEvents (RepositoryWorker.innerBody cfg env).1).length = 1 := by
  unfold RepositoryWorker.innerBody at h ⊢
  rcases hs : env.scaffold with _ | m <;>
    split_ifs at h ⊢ <;>
      simp_all [RepositoryWorker.cancelledEvent, afterScaffold_one_terminal]

theorem innerBody_no_terminal (cfg : Config) (env : Env) (m : String)
    (h : (RepositoryWorker.innerBody cfg env).2 = some m) :
    terminalEvents (RepositoryWorker.innerBody cfg env).1 = [] := by
  unfold RepositoryWorker.innerBody at h ⊢
  rcases hs : env.scaffold with _ | m' <;>
    split_ifs at h ⊢ <;>
      simp_all [RepositoryWorker.cancelledEvent, afterScaffold_no_terminal]

/-- With a working-directory restore that does not itself raise, every run
emits exactly one terminal result, whatever the configuration, the step
outcomes, and the cancellation schedule. -/
theorem run_one_terminal_of_restore_ok (cfg : Config) (env : Env)
    (h : env.chdirBack = ExcOut.ok) :
    (terminalEvents (RepositoryWorker.run cfg env)).length = 1 := by
  unfold RepositoryWorker.run
  rcases hb : (RepositoryWorker.innerBody cfg env).2 with _ | m
  · rcases hmk : env.mkdirs with _ | m1 <;> rcases hch : env.chdirIn with _ | m2 <;>
      split_ifs <;>
        simp_all [RepositoryWorker.cancelledEvent, innerBody_one_terminal,
          h]
  · rcases hmk : env.mkdirs with _ | m1 <;> rcases hch : env.chdirIn with _ | m2 <;>
      split_ifs <;>
        simp_all [RepositoryWorker.cancelledEvent, innerBody_no_terminal,
          h]

/-- A sample configuration used by concrete witnesses. -/
def cfgDemo : Config :=
  { repo_name := "demo-project"
    repo_location := "/tmp/work"
    visibility := "public"
    description := ""
    gitignore_template := ""
    license := ""
    topics := ["a", "b"]
    username := "alice"
    remote_type := "https"
    create_scaffold := true
    create_editorconfig := true
    readme_content := "" }

/-- An environment in which every external operation succeeds and the
cancellation flag is never set. -/
def envAllOk : Env :=
  { cancel := fun _ => false
    locExists := true
    mkdirs := ExcOut.ok
    chdirIn := ExcOut.ok
    scaffold := ExcOut.ok
    createRepo := true
    customGitignore := ExcOut.ok
    fetchGitignore := ExcOut.ok
    gitExists := false
    gitInit := true
    commit := true
    addRemote := true
    push := true
    setTopics := true
    chdirBack := ExcOut.ok }

/-- C7: running the scaffold writer twice with the same repo name,
editorconfig flag, and README content on the same directory is idempotent
(the second run rewrites every file with identical content and re-creates
no directory), and directory creation never duplicates directories. -/
theorem c7_create_scaffold_idempotent (n : String) (e : Bool) (r : String) (fs : FS) :
    ScaffoldGenerator.create_scaffold n e r (ScaffoldGenerator.create_scaffold n e r fs) =
      ScaffoldGenerator.create_scaffold n e r fs ∧
    (fs.dirs.Nodup → (ScaffoldGenerator.create_scaffold n e r fs).dirs.Nodup) := by
  constructor
  · rw [create_scaffold_eq n e r fs, create_scaffold_eq]
    simp only [FS.mk.injEq]
    exact ⟨addAll_idem _ _, writeAll_idem _ _ (scaffoldFiles_keys_nodup n e r)⟩
  · intro h
    rw [create_scaffold_eq]
    exact addAll_nodup _ _ h

/-- Witness for C7 at a concrete input: the empty directory. -/
theorem c7_create_scaffold_idempotent_witness :
    (FS.mk [] []).dirs.Nodup ∧
    (ScaffoldGenerator.create_scaffold "demo-project" true "" (FS.mk [] [])).dirs.Nodup :=
  ⟨by decide,
   (c7_create_scaffold_idempotent "demo-project" true "" (FS.mk [] [])).2 (by decide)⟩

/-- All fatal-step outcomes succeed, nothing raises, and the cancellation
flag is never set. The topics outcome and the filesystem shape are
deliberately unconstrained. -/
structure OkSteps (env : Env) : Prop where
  cancel_false : ∀ k, env.cancel k = false
  mkdirs_ok : env.mkdirs = ExcOut.ok
  chdirIn_ok : env.chdirIn = ExcOut.ok
  scaffold_ok : env.scaffold = ExcOut.ok
  createRepo_ok : env.createRepo = true
  customGitignore_ok : env.customGitignore = ExcOut.ok
  fetchGitignore_ok : env.fetchGitignore = ExcOut.ok
  gitInit_ok : env.gitInit = true
  commit_ok : env.commit = true
  addRemote_ok : env.addRemote = true
  push_ok : env.push = true
  chdirBack_ok : env.chdirBack = ExcOut.ok

theorem gitignoreStage_no_exc (cfg : Config) (env : Env)
    (hcg : env.customGitignore = ExcOut.ok) (hfg : env.fetchGitignore = ExcOut.ok) :
    (RepositoryWorker.gitignoreStage cfg env).2 = none := by
  unfold RepositoryWorker.gitignoreStage
  split_ifs <;> simp [hcg, hfg]

theorem topicsStep_allOk (cfg : Config) (env : Env) (k : Nat)
    (hc : ∀ j, env.cancel j = false) :
    terminalEvents (RepositoryWorker.topicsStep cfg env k) =
      [Event.finished true (RepositoryWorker.successMessage cfg)] := by
  unfold RepositoryWorker.topicsStep
  simp [hc, topicsStage_no_terminal]

theorem pushStep_allOk (cfg : Config) (env : Env) (k : Nat)
    (hc : ∀ j, env.cancel j = false) (hp : env.push = true) :
    terminalEvents (RepositoryWorker.pushStep cfg env k) =
      [Event.finished true (RepositoryWorker.successMessage cfg)] := by
  unfold RepositoryWorker.pushStep
  simp [hc, hp, topicsStep_allOk cfg env (k + 1) hc]

theorem remoteStep_allOk (cfg : Config) (env : Env) (k : Nat)
    (hc : ∀ j, env.cancel j = false) (har : env.addRemote = true)
    (hp : env.push = true) :
    terminalEvents (RepositoryWorker.remoteStep cfg env k) =
      [Event.finished true (RepositoryWorker.successMessage cfg)] := by
  unfold RepositoryWorker.remoteStep
  simp [hc, har, pushStep_allOk cfg env (k + 1) hc hp]

theorem commitStep_allOk (cfg : Config) (env : Env) (k : Nat)
    (hc : ∀ j, env.cancel j = false) (hcmt : env.commit = true)
    (har : env.addRemote = true) (hp : env.push = true) :
    terminalEvents (RepositoryWorker.commitStep cfg env k) =
      [Event.finished true (RepositoryWorker.successMessage cfg)] := by
  unfold RepositoryWorker.commitStep
  simp [hc, hcmt, remoteStep_allOk cfg env (k + 1) hc har hp]

theorem initStep_allOk (cfg : Config) (env : Env) (k : Nat)
    (hc : ∀ j, env.cancel j = false) (hgi : env.gitInit = true)
    (hcmt : env.commit = true) (har : env.addRemote = true)
    (hp : env.push = true) :
    terminalEvents (RepositoryWorker.initStep cfg env k) =
      [Event.finished true (RepositoryWorker.successMessage cfg)] := by
  unfold RepositoryWorker.initStep
  rcases hge : env.gitExists with _ | _ <;>
    simp [hc, hgi, hge, commitStep_allOk cfg env (k + 1) hc hcmt har hp]

theorem afterScaffold_allOk (cfg : Config) (env : Env) (k : Nat)
    (hc : ∀ j, env.cancel j = false) (hcr : env.createRepo = true)
    (hcg : env.customGitignore = ExcOut.ok) (hfg : env.fetchGitignore = ExcOut.ok)
    (hgi : env.gitInit = true) (hcmt : env.commit = true)
    (har : env.addRemote = true) (hp : env.push = true) :
    (RepositoryWorker.afterScaffold cfg env k).2 = none ∧
    terminalEvents (RepositoryWorker.afterScaffold cfg env k).1 =
      [Event.finished true (RepositoryWorker.successMessage cfg)] := by
  unfold RepositoryWorker.afterScaffold
  rcases hg : (RepositoryWorker.gitignoreStage cfg env).2 with _ | m
  · simp [hc, hcr, hg, gitignoreStage_no_terminal,
      initStep_allOk cfg env (k + 2) hc hgi hcmt har hp]
  · exact absurd (gitignoreStage_no_exc cfg env hcg hfg) (by simp [hg])

theorem innerBody_allOk (cfg : Config) (env : Env)
    (hc : ∀ j, env.cancel j = false) (hsf : env.scaffold = ExcOut.ok)
    (hcr : env.createRepo = true)
    (hcg : env.customGitignore = ExcOut.ok) (hfg : env.fetchGitignore = ExcOut.ok)
    (hgi : env.gitInit = true) (hcmt : env.commit = true)
    (har : env.addRemote = true) (hp : env.push = true) :
    (RepositoryWorker.innerBody cfg env).2 = none ∧
    terminalEvents (RepositoryWorker.innerBody cfg env).1 =
      [Event.finished true (RepositoryWorker.successMessage cfg)] := by
  unfold RepositoryWorker.innerBody
  rcases hsc : cfg.create_scaffold with _ | _
  · simpa [hsc] using afterScaffold_allOk cfg env 1 hc hcr hcg hfg hgi hcmt har hp
  · have h2 := afterScaffold_allOk cfg env 2 hc hcr hcg hfg hgi hcmt har hp
    simp [hsc, hc, hsf, h2.1, h2.2]

/-- Under `OkSteps` the run always ends in the single success emission,
whatever the configuration, the topics outcome, and the filesystem shape. -/
theorem run_allOk_terminal (cfg : Config) (env : Env) (h : OkSteps env) :
    terminalEvents (RepositoryWorker.run cfg env) =
      [Event.finished true (RepositoryWorker.successMessage cfg)] := by
  obtain ⟨hc, hmk, hch, hsf, hcr, hcg, hfg, hgi, hcmt, har, hp, hcb⟩ := h
  have hb := innerBody_allOk cfg env hc hsf hcr hcg hfg hgi hcmt har hp
  unfold RepositoryWorker.run
  rcases hloc : env.locExists with _ | _ <;>
    simp [hc, hloc, hmk, hch, hcb, hb.1, hb.2]

theorem mem_run_of_mem_innerBody (cfg : Config) (env : Env) (e : Event)
    (hc0 : env.cancel 0 = false) (hmk : env.mkdirs = ExcOut.ok)
    (hch : env.chdirIn = ExcOut.ok)
    (he : e ∈ (RepositoryWorker.innerBody cfg env).1) :
    e ∈ RepositoryWorker.run cfg env := by
  unfold RepositoryWorker.run
  rcases hloc : env.locExists with _ | _ <;>
    rcases hb : (RepositoryWorker.innerBody cfg env).2 with _ | m <;>
      rcases hcb : env.chdirBack with _ | m2 <;>
        simp [hc0, hloc, hmk, hch, hcb, hb, he]

theorem mem_innerBody_of_mem_afterScaffold (cfg : Config) (env : Env) (e : Event)
    (hc : ∀ j, env.cancel j = false) (hsf : env.scaffold = ExcOut.ok)
    (he : ∀ k, e ∈ (RepositoryWorker.afterScaffold cfg env k).1) :
    e ∈ (RepositoryWorker.innerBody cfg env).1 := by
  unfold RepositoryWorker.innerBody
  rcases hsc : cfg.create_scaffold with _ | _ <;> simp [hsc, hc, hsf, he 1, he 2]

theorem mem_afterScaffold_of_mem_initStep (cfg : Config) (env : Env) (k : Nat) (e : Event)
    (hc : ∀ j, env.cancel j = false) (hcr : env.createRepo = true)
    (hg : (RepositoryWorker.gitignoreStage cfg env).2 = none)
    (he : e ∈ RepositoryWorker.initStep cfg env (k + 2)) :
    e ∈ (RepositoryWorker.afterScaffold cfg env k).1 := by
  unfold RepositoryWorker.afterScaffold
  simp [hc, hcr, hg, he]

theorem mem_initStep_of_mem_commitStep (cfg : Config) (env : Env) (k : Nat) (e : Event)
    (hc : ∀ j, env.cancel j = false) (hgi : env.gitInit = true)
    (he : e ∈ RepositoryWorker.commitStep cfg env (k + 1)) :
    e ∈ RepositoryWorker.initStep cfg env k := by
  unfold RepositoryWorker.initStep
  rcases hge : env.gitExists with _ | _ <;> simp [hc, hgi, hge, he]

theorem mem_commitStep_of_mem_remoteStep (cfg : Config) (env : Env) (k : Nat) (e : Event)
    (hc : ∀ j, env.cancel j = false) (hcmt : env.commit = true)
    (he : e ∈ RepositoryWorker.remoteStep cfg env (k + 1)) :
    e ∈ RepositoryWorker.commitStep cfg env k := by
  unfold RepositoryWorker.commitStep
  simp [hc, hcmt, he]

theorem mem_remoteStep_of_mem_pushStep (cfg : Config) (env : Env) (k : Nat) (e : Event)
    (hc : ∀ j, env.cancel j = false) (har : env.addRemote = true)
    (he : e ∈ RepositoryWorker.pushStep cfg env (k + 1)) :
    e ∈ RepositoryWorker.remoteStep cfg env k := by
  unfold RepositoryWorker.remoteStep
  simp [hc, har, he]

theorem mem_pushStep_of_mem_topicsStep (cfg : Config) (env : Env) (k : Nat) (e : Event)
    (hc : ∀ j, env.cancel j = false) (hp : env.push = true)
    (he : e ∈ RepositoryWorker.topicsStep cfg env (k + 1)) :
    e ∈ RepositoryWorker.pushStep cfg env k := by
  unfold RepositoryWorker.pushStep
  simp [hc, hp, he]

theorem warning_mem_topicsStep (cfg : Config) (env : Env) (k : Nat)
    (hc : ∀ j, env.cancel j = false) (ht : cfg.topics ≠ [])
    (hst : env.setTopics = false) :
    Event.progress "Warning: Failed to set topics" ∈
        RepositoryWorker.topicsStep cfg env k ∧
    Event.call Op.topicsOp ∈ RepositoryWorker.topicsStep cfg env k := by
  unfold RepositoryWorker.topicsStep RepositoryWorker.topicsStage
  simp [hc, ht, hst]

theorem topicsOp_not_mem_topicsStep (cfg : Config) (env : Env) (k : Nat)
    (ht : cfg.topics = []) :
    Event.call Op.topicsOp ∉ RepositoryWorker.topicsStep cfg env k := by
  unfold RepositoryWorker.topicsStep RepositoryWorker.topicsStage
  split_ifs <;> simp_all [RepositoryWorker.cancelledEvent]

theorem topicsOp_not_mem_pushStep (cfg : Config) (env : Env) (k : Nat)
    (ht : cfg.topics = []) :
    Event.call Op.topicsOp ∉ RepositoryWorker.pushStep cfg env k := by
  unfold RepositoryWorker.pushStep
  split_ifs <;>
    simp_all [RepositoryWorker.cancelledEvent, topicsOp_not_mem_topicsStep cfg env (k + 1) ht]

theorem topicsOp_not_mem_remoteStep (cfg : Config) (env : Env) (k : Nat)
    (ht : cfg.topics = []) :
    Event.call Op.topicsOp ∉ RepositoryWorker.remoteStep cfg env k := by
  unfold RepositoryWorker.remoteStep
  split_ifs <;>
    simp_all [RepositoryWorker.cancelledEvent, topicsOp_not_mem_pushStep cfg env (k + 1) ht]

theorem topicsOp_not_mem_commitStep (cfg : Config) (env : Env) (k : Nat)
    (ht : cfg.topics = []) :
    Event.call Op.topicsOp ∉ RepositoryWorker.commitStep cfg env k := by
  unfold RepositoryWorker.commitStep
  split_ifs <;>
    simp_all [RepositoryWorker.cancelledEvent, topicsOp_not_mem_remoteStep cfg env (k + 1) ht]

theorem topicsOp_not_mem_initStep (cfg : Config) (env : Env) (k : Nat)
    (ht : cfg.topics = []) :
    Event.call Op.topicsOp ∉ RepositoryWorker.initStep cfg env k := by
  unfold RepositoryWorker.initStep
  split_ifs <;>
    simp_all [RepositoryWorker.cancelledEvent, topicsOp_not_mem_commitStep cfg env (k + 1) ht]

theorem topicsOp_not_mem_gitignoreStage (cfg : Config) (env : Env) :
    Event.call Op.topicsOp ∉ (RepositoryWorker.gitignoreStage cfg env).1 := by
  unfold RepositoryWorker.gitignoreStage
  split_ifs <;> simp

theorem topicsOp_not_mem_afterScaffold (cfg : Config) (env : Env) (k : Nat)
    (ht : cfg.topics = []) :
    Event.call Op.topicsOp ∉ (RepositoryWorker.afterScaffold cfg env k).1 := by
  unfold RepositoryWorker.afterScaffold
  rcases hg : (RepositoryWorker.gitignoreStage cfg env).2 with _ | m <;>
    split_ifs <;>
      simp_all [RepositoryWorker.cancelledEvent, topicsOp_not_mem_gitignoreStage cfg env,
        topicsOp_not_mem_initStep cfg env (k + 2) ht]

theorem topicsOp_not_mem_innerBody (cfg : Config) (env : Env)
    (ht : cfg.topics = []) :
    Event.call Op.topicsOp ∉ (RepositoryWorker.innerBody cfg env).1 := by
  unfold RepositoryWorker.innerBody
  rcases hs : env.scaffold with _ | m <;>
    split_ifs <;>
      simp_all [RepositoryWorker.cancelledEvent,
        topicsOp_not_mem_afterScaffold cfg env 1 ht,
        topicsOp_not_mem_afterScaffold cfg env 2 ht]

theorem topicsOp_not_mem_run (cfg : Config) (env : Env)
    (ht : cfg.topics = []) :
    Event.call Op.topicsOp ∉ RepositoryWorker.run cfg env := by
  unfold RepositoryWorker.run
  rcases hmk : env.mkdirs with _ | m1 <;> rcases hch : env.chdirIn with _ | m2 <;>
    rcases hcb : env.chdirBack with _ | m3 <;>
      rcases hb : (RepositoryWorker.innerBody cfg env).2 with _ | m4 <;>
        split_ifs <;>
          simp_all [RepositoryWorker.cancelledEvent, topicsOp_not_mem_innerBody cfg env ht]

/-- The environment of a run in which everything succeeds but restoring
the original working directory in the `finally` block raises. -/
def envRestoreFail : Env := { envAllOk with chdirBack := ExcOut.exc "chdir fail" }

/-- C1: evaluation at the failing input. When every step succeeds but the
`finally` restore of the original working directory raises, the run emits
TWO terminal results: the success emission from the inner body, then a
second failure emission from the outer exception handler. This contradicts
the exactly-one-terminal-result contract. -/
theorem c1_two_terminal_results_on_restore_failure :
    terminalEvents (RepositoryWorker.run cfgDemo envRestoreFail) =
      [Event.finished true (RepositoryWorker.successMessage cfgDemo),
       Event.finished false "Error: chdir fail"] ∧
    (terminalEvents (RepositoryWorker.run cfgDemo envRestoreFail)).length = 2 := by
  constructor <;> decide

example :
    RepositoryWorker.run cfgDemo envAllOk =
      [Event.call Op.chdirOp,
       Event.progress "Creating project scaffold...", Event.call Op.scaffoldOp,
       Event.progress "Creating GitHub repository...", Event.call Op.createRepoOp,
       Event.progress "Initializing git repository...", Event.call Op.gitInitOp,
       Event.progress "Adding and committing files...", Event.call Op.commitOp,
       Event.progress "Adding remote origin...", Event.call Op.remoteOp,
       Event.progress "Pushing to GitHub...", Event.call Op.pushOp,
       Event.progress "Setting repository topics...", Event.call Op.topicsOp,
       Event.finished true "Repository 'demo-project' created successfully!",
       Event.call Op.chdirBackOp] := by
  decide

theorem okSteps_envAllOk : OkSteps envAllOk :=
  ⟨fun _ => rfl, rfl, rfl, rfl, rfl, rfl, rfl, rfl, rfl, rfl, rfl, rfl⟩

theorem afterScaffold_createRepo_false (cfg : Config) (env : Env) (k : Nat)
    (h : env.createRepo = false) :
    RepositoryWorker.afterScaffold cfg env k =
      (if env.cancel k then [RepositoryWorker.cancelledEvent]
       else [Event.progress "Creating GitHub repository...", Event.call Op.createRepoOp,
             Event.finished false "Failed to create GitHub repository"], none) := by
  unfold RepositoryWorker.afterScaffold
  rcases hck : env.cancel k with _ | _ <;> simp [h, hck]

/-- The environment of a run whose hosted-repository creation fails
(`create_repository` returns `False`). -/
def envCreateRepoFail : Env := { envAllOk with createRepo := false }

/-- An event compatible with a run whose hosted-repository creation
failed: not a version-control call and not a success emission. -/
def benignAfterCreateFail : Event → Bool
  | Event.call op => !op.isVcs
  | Event.finished b _ => !b
  | Event.progress _ => true

theorem innerBody_all_benign (cfg : Config) (env : Env)
    (h : env.createRepo = false) :
    (RepositoryWorker.innerBody cfg env).1.all benignAfterCreateFail = true := by
  unfold RepositoryWorker.innerBody
  rw [afterScaffold_createRepo_false cfg env 1 h, afterScaffold_createRepo_false cfg env 2 h]
  rcases hsf : env.scaffold with _ | m <;> split_ifs <;>
    simp_all [RepositoryWorker.cancelledEvent, benignAfterCreateFail, Op.isVcs]

theorem run_all_benign (cfg : Config) (env : Env)
    (h : env.createRepo = false) :
    (RepositoryWorker.run cfg env).all benignAfterCreateFail = true := by
  have hib := innerBody_all_benign cfg env h
  unfold RepositoryWorker.run
  rcases hmk : env.mkdirs with _ | m1 <;> rcases hch : env.chdirIn with _ | m2 <;>
    rcases hcb : env.chdirBack with _ | m3 <;>
      rcases hb : (RepositoryWorker.innerBody cfg env).2 with _ | m4 <;>
        split_ifs <;>
          simp_all [RepositoryWorker.cancelledEvent, benignAfterCreateFail, Op.isVcs]

/-- Every run emits at least one terminal result. -/
theorem run_terminal_ne_nil (cfg : Config) (env : Env) :
    terminalEvents (RepositoryWorker.run cfg env) ≠ [] := by
  rcases hcb : env.chdirBack with _ | m
  · have hone := run_one_terminal_of_restore_ok cfg env hcb
    intro hnil
    rw [hnil] at hone
    simp at hone
  · unfold RepositoryWorker.run
    rcases hmk : env.mkdirs with _ | m1 <;> rcases hch : env.chdirIn with _ | m2 <;>
      rcases hb : (RepositoryWorker.innerBody cfg env).2 with _ | m4 <;>
        split_ifs <;> simp [hcb, RepositoryWorker.cancelledEvent, hb]

/-- C2: if the hosted-repository creation step fails, every terminal
emission of the run is a failure and no version-control operation (init,
stage/commit, remote add/update, push) is ever invoked. -/
theorem c2_hosted_create_failure_blocks_vcs (cfg : Config) (env : Env)
    (h : env.createRepo = false) :
    (∀ op, Event.call op ∈ RepositoryWorker.run cfg env → Op.isVcs op = false) ∧
    (∀ b m, Event.finished b m ∈ RepositoryWorker.run cfg env → b = false) ∧
    terminalEvents (RepositoryWorker.run cfg env) ≠ [] := by
  have hall := run_all_benign cfg env h
  rw [List.all_eq_true] at hall
  refine ⟨?_, ?_, run_terminal_ne_nil cfg env⟩
  · intro op hop
    simpa [benignAfterCreateFail] using hall _ hop
  · intro b m hbm
    simpa [benignAfterCreateFail] using hall _ hbm

/-- Witness for C2 at a concrete input. -/
theorem c2_hosted_create_failure_blocks_vcs_witness :
    (∀ op, Event.call op ∈ RepositoryWorker.run cfgDemo envCreateRepoFail →
       Op.isVcs op = false) ∧
    (∀ b m, Event.finished b m ∈ RepositoryWorker.run cfgDemo envCreateRepoFail →
       b = false) ∧
    terminalEvents (RepositoryWorker.run cfgDemo envCreateRepoFail) ≠ [] :=
  c2_hosted_create_failure_blocks_vcs cfgDemo envCreateRepoFail rfl

theorem mem_run_of_mem_topicsStep (cfg : Config) (env : Env) (e : Event)
    (h : OkSteps env) (he : ∀ k, e ∈ RepositoryWorker.topicsStep cfg env k) :
    e ∈ RepositoryWorker.run cfg env := by
  apply mem_run_of_mem_innerBody cfg env e (h.cancel_false 0) h.mkdirs_ok h.chdirIn_ok
  apply mem_innerBody_of_mem_afterScaffold cfg env e h.cancel_false h.scaffold_ok
  intro k
  apply mem_afterScaffold_of_mem_initStep cfg env k e h.cancel_false h.createRepo_ok
    (gitignoreStage_no_exc cfg env h.customGitignore_ok h.fetchGitignore_ok)
  apply mem_initStep_of_mem_commitStep cfg env _ e h.cancel_false h.gitInit_ok
  apply mem_commitStep_of_mem_remoteStep cfg env _ e h.cancel_false h.commit_ok
  apply mem_remoteStep_of_mem_pushStep cfg env _ e h.cancel_false h.addRemote_ok
  apply mem_pushStep_of_mem_topicsStep cfg env _ e h.cancel_false h.push_ok
  exact he _

/-- C3: in a run where every required step succeeds, a topics-set failure
on a non-empty topics list emits a warning progress event while the
terminal result stays the single success emission; and the topics step is
attempted only when the topics list is non-empty. -/
theorem c3_topics_failure_warning_only (cfg : Config) (env : Env) (h : OkSteps env) :
    (cfg.topics ≠ [] → env.setTopics = false →
       Event.progress "Warning: Failed to set topics" ∈ RepositoryWorker.run cfg env ∧
       Event.call Op.topicsOp ∈ RepositoryWorker.run cfg env ∧
       terminalEvents (RepositoryWorker.run cfg env) =
         [Event.finished true (RepositoryWorker.successMessage cfg)]) ∧
    (cfg.topics = [] → Event.call Op.topicsOp ∉ RepositoryWorker.run cfg env) := by
  constructor
  · intro ht hst
    refine ⟨?_, ?_, run_allOk_terminal cfg env h⟩
    · exact mem_run_of_mem_topicsStep cfg env _ h
        (fun k => (warning_mem_topicsStep cfg env k h.cancel_false ht hst).1)
    · exact mem_run_of_mem_topicsStep cfg env _ h
        (fun k => (warning_mem_topicsStep cfg env k h.cancel_false ht hst).2)
  · intro ht
    exact topicsOp_not_mem_run cfg env ht

/-- The environment of a run in which only the topics step fails. -/
def envTopicsFail : Env := { envAllOk with setTopics := false }

/-- A configuration with no topics. -/
def cfgNoTopics : Config := { cfgDemo with topics := [] }

theorem okSteps_envTopicsFail : OkSteps envTopicsFail :=
  ⟨fun _ => rfl, rfl, rfl, rfl, rfl, rfl, rfl, rfl, rfl, rfl, rfl, rfl⟩

/-- Witness for C3 at concrete inputs. -/
theorem c3_topics_failure_warning_only_witness :
    (cfgDemo.topics ≠ [] ∧
     Event.progress "Warning: Failed to set topics" ∈
       RepositoryWorker.run cfgDemo envTopicsFail ∧
     terminalEvents (RepositoryWorker.run cfgDemo envTopicsFail) =
       [Event.finished true (RepositoryWorker.successMessage cfgDemo)]) ∧
    (cfgNoTopics.topics = [] ∧
     Event.call Op.topicsOp ∉ RepositoryWorker.run cfgNoTopics envAllOk) :=
  ⟨⟨by decide,
    ((c3_topics_failure_warning_only cfgDemo envTopicsFail okSteps_envTopicsFail).1
        (by decide) rfl).1,
    ((c3_topics_failure_warning_only cfgDemo envTopicsFail okSteps_envTopicsFail).1
        (by decide) rfl).2.2⟩,
   ⟨rfl,
    (c3_topics_failure_warning_only cfgNoTopics envAllOk okSteps_envAllOk).2 rfl⟩⟩

/-- Every external operation succeeds and nothing raises; unlike
`OkSteps`, the cancellation schedule is unconstrained. -/
structure StepsOk (env : Env) : Prop where
  mkdirs_ok : env.mkdirs = ExcOut.ok
  chdirIn_ok : env.chdirIn = ExcOut.ok
  scaffold_ok : env.scaffold = ExcOut.ok
  createRepo_ok : env.createRepo = true
  customGitignore_ok : env.customGitignore = ExcOut.ok
  fetchGitignore_ok : env.fetchGitignore = ExcOut.ok
  gitInit_ok : env.gitInit = true
  commit_ok : env.commit = true
  addRemote_ok : env.addRemote = true
  push_ok : env.push = true
  chdirBack_ok : env.chdirBack = ExcOut.ok

/-- The index of the cancellation poll guarding the first step of
`afterScaffold`: poll 0 is the check at the top of `run`, and when
`create_scaffold` is set the scaffold step consumes poll 1. -/
def pollBase (cfg : Config) : Nat := if cfg.create_scaffold then 2 else 1

/-- The index of the cancellation poll that guards each pipeline step of
`RepositoryWorker.run` under configuration `cfg` (`none` for bookkeeping
operations guarded by no poll, and for the scaffold operation of a run
that creates no scaffold). -/
def pollOf (cfg : Config) : Op → Option Nat
  | Op.scaffoldOp => if cfg.create_scaffold then some 1 else none
  | Op.createRepoOp => some (pollBase cfg)
  | Op.customGitignoreOp => some (pollBase cfg + 1)
  | Op.fetchGitignoreOp => some (pollBase cfg + 1)
  | Op.gitInitOp => some (pollBase cfg + 2)
  | Op.commitOp => some (pollBase cfg + 3)
  | Op.remoteOp => some (pollBase cfg + 4)
  | Op.pushOp => some (pollBase cfg + 5)
  | Op.topicsOp => some (pollBase cfg + 6)
  | _ => none

/-- The pipeline operations that may have run strictly before the poll at
relative index `i` inside `afterScaffold`. -/
def opsBeforeRel : Nat → List Op
  | 0 => []
  | 1 => [Op.createRepoOp]
  | 2 => [Op.createRepoOp, Op.customGitignoreOp, Op.fetchGitignoreOp]
  | 3 => [Op.createRepoOp, Op.customGitignoreOp, Op.fetchGitignoreOp, Op.gitInitOp]
  | 4 => [Op.createRepoOp, Op.customGitignoreOp, Op.fetchGitignoreOp, Op.gitInitOp,
          Op.commitOp]
  | 5 => [Op.createRepoOp, Op.customGitignoreOp, Op.fetchGitignoreOp, Op.gitInitOp,
          Op.commitOp, Op.remoteOp]
  | _ => [Op.createRepoOp, Op.customGitignoreOp, Op.fetchGitignoreOp, Op.gitInitOp,
          Op.commitOp, Op.remoteOp, Op.pushOp]

/-- The directory bookkeeping events at the top of `run` (makedirs when
the location is missing, then the chdir into it). -/
def preRun (env : Env) : List Event :=
  (if env.locExists then [] else [Event.call Op.mkdirsOp]) ++ [Event.call Op.chdirOp]

/-- The events of the init step proper (empty when `.git` exists). -/
def initEvents (env : Env) : List Event :=
  if env.gitExists then []
  else [Event.progress "Initializing git repository...", Event.call Op.gitInitOp]

/-- The events of the scaffold step (empty when no scaffold is created). -/
def scaffoldEvents (cfg : Config) : List Event :=
  if cfg.create_scaffold then
    [Event.progress "Creating project scaffold...", Event.call Op.scaffoldOp]
  else []

theorem calls_preRun (env : Env) (op : Op) (h : Event.call op ∈ preRun env) :
    op = Op.mkdirsOp ∨ op = Op.chdirOp := by
  unfold preRun at h
  split_ifs at h <;> simp_all

theorem calls_initEvents (env : Env) (op : Op) (h : Event.call op ∈ initEvents env) :
    op = Op.gitInitOp := by
  unfold initEvents at h
  split_ifs at h <;> simp_all

theorem calls_gitignoreStage (cfg : Config) (env : Env) (op : Op)
    (h : Event.call op ∈ (RepositoryWorker.gitignoreStage cfg env).1) :
    op = Op.customGitignoreOp ∨ op = Op.fetchGitignoreOp := by
  unfold RepositoryWorker.gitignoreStage at h
  split_ifs at h <;> simp_all

theorem run_eq_inner (cfg : Config) (env : Env)
    (hc0 : env.cancel 0 = false) (hmk : env.mkdirs = ExcOut.ok)
    (hch : env.chdirIn = ExcOut.ok) (hcb : env.chdirBack = ExcOut.ok)
    (hb : (RepositoryWorker.innerBody cfg env).2 = none) :
    RepositoryWorker.run cfg env =
      preRun env ++ (RepositoryWorker.innerBody cfg env).1 ++
        [Event.call Op.chdirBackOp] := by
  unfold RepositoryWorker.run preRun
  rcases hloc : env.locExists with _ | _ <;> simp [hc0, hloc, hmk, hch, hcb, hb]

theorem topicsStep_cancel_now (cfg : Config) (env : Env) (k : Nat)
    (h : env.cancel k = true) :
    RepositoryWorker.topicsStep cfg env k = [RepositoryWorker.cancelledEvent] := by
  unfold RepositoryWorker.topicsStep
  simp [h]

theorem pushStep_cancel_now (cfg : Config) (env : Env) (k : Nat)
    (h : env.cancel k = true) :
    RepositoryWorker.pushStep cfg env k = [RepositoryWorker.cancelledEvent] := by
  unfold RepositoryWorker.pushStep
  simp [h]

theorem pushStep_eq_topics (cfg : Config) (env : Env) (k : Nat)
    (h : env.cancel k = false) (hp : env.push = true) :
    RepositoryWorker.pushStep cfg env k =
      [Event.progress "Pushing to GitHub...", Event.call Op.pushOp] ++
        RepositoryWorker.topicsStep cfg env (k + 1) := by
  unfold RepositoryWorker.pushStep
  simp [h, hp]

theorem remoteStep_cancel_now (cfg : Config) (env : Env) (k : Nat)
    (h : env.cancel k = true) :
    RepositoryWorker.remoteStep cfg env k = [RepositoryWorker.cancelledEvent] := by
  unfold RepositoryWorker.remoteStep
  simp [h]

theorem remoteStep_eq_push (cfg : Config) (env : Env) (k : Nat)
    (h : env.cancel k = false) (har : env.addRemote = true) :
    RepositoryWorker.remoteStep cfg env k =
      [Event.progress "Adding remote origin...", Event.call Op.remoteOp] ++
        RepositoryWorker.pushStep cfg env (k + 1) := by
  unfold RepositoryWorker.remoteStep
  simp [h, har]

theorem commitStep_cancel_now (cfg : Config) (env : Env) (k : Nat)
    (h : env.cancel k = true) :
    RepositoryWorker.commitStep cfg env k = [RepositoryWorker.cancelledEvent] := by
  unfold RepositoryWorker.commitStep
  simp [h]

theorem commitStep_eq_remote (cfg : Config) (env : Env) (k : Nat)
    (h : env.cancel k = false) (hcmt : env.commit = true) :
    RepositoryWorker.commitStep cfg env k =
      [Event.progress "Adding and committing files...", Event.call Op.commitOp] ++
        RepositoryWorker.remoteStep cfg env (k + 1) := by
  unfold RepositoryWorker.commitStep
  simp [h, hcmt]

theorem initStep_cancel_now (cfg : Config) (env : Env) (k : Nat)
    (h : env.cancel k = true) :
    RepositoryWorker.initStep cfg env k = [RepositoryWorker.cancelledEvent] := by
  unfold RepositoryWorker.initStep
  simp [h]

theorem initStep_eq_commit (cfg : Config) (env : Env) (k : Nat)
    (h : env.cancel k = false) (hgi : env.gitInit = true) :
    RepositoryWorker.initStep cfg env k =
      initEvents env ++ RepositoryWorker.commitStep cfg env (k + 1) := by
  unfold RepositoryWorker.initStep initEvents
  rcases hge : env.gitExists with _ | _ <;> simp [h, hgi, hge]

theorem afterScaffold_cancel_now (cfg : Config) (env : Env) (k : Nat)
    (h : env.cancel k = true) :
    RepositoryWorker.afterScaffold cfg env k = ([RepositoryWorker.cancelledEvent], none) := by
  unfold RepositoryWorker.afterScaffold
  simp [h]

theorem afterScaffold_cancel_second (cfg : Config) (env : Env) (k : Nat)
    (h0 : env.cancel k = false) (hcr : env.createRepo = true)
    (h1 : env.cancel (k + 1) = true) :
    RepositoryWorker.afterScaffold cfg env k =
      ([Event.progress "Creating GitHub repository...", Event.call Op.createRepoOp,
        RepositoryWorker.cancelledEvent], none) := by
  unfold RepositoryWorker.afterScaffold
  simp [h0, hcr, h1]

theorem afterScaffold_eq_initStep (cfg : Config) (env : Env) (k : Nat)
    (h0 : env.cancel k = false) (hcr : env.createRepo = true)
    (h1 : env.cancel (k + 1) = false)
    (hg : (RepositoryWorker.gitignoreStage cfg env).2 = none) :
    RepositoryWorker.afterScaffold cfg env k =
      ([Event.progress "Creating GitHub repository...", Event.call Op.createRepoOp] ++
         (RepositoryWorker.gitignoreStage cfg env).1 ++
         RepositoryWorker.initStep cfg env (k + 2), none) := by
  unfold RepositoryWorker.afterScaffold
  simp [h0, hcr, h1, hg]

theorem innerBody_eq_afterScaffold (cfg : Config) (env : Env)
    (h : cfg.create_scaffold = true → env.cancel 1 = false ∧ env.scaffold = ExcOut.ok) :
    RepositoryWorker.innerBody cfg env =
      (scaffoldEvents cfg ++ (RepositoryWorker.afterScaffold cfg env (pollBase cfg)).1,
       (RepositoryWorker.afterScaffold cfg env (pollBase cfg)).2) := by
  unfold RepositoryWorker.innerBody scaffoldEvents pollBase
  rcases hcs : cfg.create_scaffold with _ | _
  · simp
  · obtain ⟨h1, hs⟩ := h hcs
    simp [h1, hs]

theorem initEvents_no_terminal (env : Env) : terminalEvents (initEvents env) = [] := by
  unfold initEvents
  split_ifs <;> simp

theorem preRun_no_terminal (env : Env) : terminalEvents (preRun env) = [] := by
  unfold preRun
  split_ifs <;> simp

theorem pollOf_opsBeforeRel (cfg : Config) (i : Nat) (hi : i ≤ 6) (op : Op)
    (hop : op ∈ opsBeforeRel i) (i0 : Nat) (hpoll : pollOf cfg op = some i0) :
    i0 < pollBase cfg + i := by
  interval_cases i <;> fin_cases hop <;> simp [pollOf] at hpoll <;> omega

/-- Cancellation first observed at the poll of relative index `i` inside
`afterScaffold` (base poll index `b`): the block ends with the single
cancelled terminal emission, raises nothing, and has invoked only the
operations of the steps strictly before that poll. -/
theorem afterScaffold_cancel_at (cfg : Config) (env : Env) (b i : Nat)
    (hcr : env.createRepo = true) (hcg : env.customGitignore = ExcOut.ok)
    (hfg : env.fetchGitignore = ExcOut.ok) (hgi : env.gitInit = true)
    (hcmt : env.commit = true) (har : env.addRemote = true) (hp : env.push = true)
    (hbefore : ∀ j, j < i → env.cancel (b + j) = false)
    (hk : env.cancel (b + i) = true) (hi : i ≤ 6) :
    (RepositoryWorker.afterScaffold cfg env b).2 = none ∧
    terminalEvents (RepositoryWorker.afterScaffold cfg env b).1 =
      [RepositoryWorker.cancelledEvent] ∧
    (∀ op, Event.call op ∈ (RepositoryWorker.afterScaffold cfg env b).1 →
       op ∈ opsBeforeRel i) := by
  have hg := gitignoreStage_no_exc cfg env hcg hfg
  interval_cases i
  · rw [afterScaffold_cancel_now cfg env b (by simpa using hk)]
    refine ⟨rfl, by simp [RepositoryWorker.cancelledEvent], ?_⟩
    intro op hop
    simp [RepositoryWorker.cancelledEvent] at hop
  · have h0 : env.cancel b = false := by simpa using hbefore 0 (by omega)
    rw [afterScaffold_cancel_second cfg env b h0 hcr hk]
    refine ⟨rfl, by simp [RepositoryWorker.cancelledEvent], ?_⟩
    intro op hop
    simp [RepositoryWorker.cancelledEvent] at hop
    simp [opsBeforeRel, hop]
  · have h0 : env.cancel b = false := by simpa using hbefore 0 (by omega)
    have h1 : env.cancel (b + 1) = false := hbefore 1 (by omega)
    rw [afterScaffold_eq_initStep cfg env b h0 hcr h1 hg,
        initStep_cancel_now cfg env (b + 2) hk]
    refine ⟨rfl,
      by simp [RepositoryWorker.cancelledEvent, gitignoreStage_no_terminal], ?_⟩
    intro op hop
    simp [RepositoryWorker.cancelledEvent] at hop
    rcases hop with hop | hop
    · simp [opsBeforeRel, hop]
    · rcases calls_gitignoreStage cfg env op hop with h | h <;> simp [opsBeforeRel, h]
  · have h0 : env.cancel b = false := by simpa using hbefore 0 (by omega)
    have h1 : env.cancel (b + 1) = false := hbefore 1 (by omega)
    have h2 : env.cancel (b + 2) = false := hbefore 2 (by omega)
    have e3 : b + 2 + 1 = b + 3 := by omega
    rw [afterScaffold_eq_initStep cfg env b h0 hcr h1 hg,
        initStep_eq_commit cfg env (b + 2) h2 hgi, e3,
        commitStep_cancel_now cfg env (b + 3) hk]
    refine ⟨rfl,
      by simp [RepositoryWorker.cancelledEvent, gitignoreStage_no_terminal,
        initEvents_no_terminal], ?_⟩
    intro op hop
    simp [RepositoryWorker.cancelledEvent] at hop
    rcases hop with hop | hop | hop
    · simp [opsBeforeRel, hop]
    · rcases calls_gitignoreStage cfg env op hop with h | h <;> simp [opsBeforeRel, h]
    · simp [opsBeforeRel, calls_initEvents env op hop]
  · have h0 : env.cancel b = false := by simpa using hbefore 0 (by omega)
    have h1 : env.cancel (b + 1) = false := hbefore 1 (by omega)
    have h2 : env.cancel (b + 2) = false := hbefore 2 (by omega)
    have h3 : env.cancel (b + 3) = false := hbefore 3 (by omega)
    have e3 : b + 2 + 1 = b + 3 := by omega
    have e4 : b + 3 + 1 = b + 4 := by omega
    rw [afterScaffold_eq_initStep cfg env b h0 hcr h1 hg,
        initStep_eq_commit cfg env (b + 2) h2 hgi, e3,
        commitStep_eq_remote cfg env (b + 3) h3 hcmt, e4,
        remoteStep_cancel_now cfg env (b + 4) hk]
    refine ⟨rfl,
      by simp [RepositoryWorker.cancelledEvent, gitignoreStage_no_terminal,
        initEvents_no_terminal], ?_⟩
    intro op hop
    simp [RepositoryWorker.cancelledEvent] at hop
    rcases hop with hop | hop | hop | hop
    · simp [opsBeforeRel, hop]
    · rcases calls_gitignoreStage cfg env op hop with h | h <;> simp [opsBeforeRel, h]
    · simp [opsBeforeRel, calls_initEvents env op hop]
    · simp [opsBeforeRel, hop]
  · have h0 : env.cancel b = false := by simpa using hbefore 0 (by omega)
    have h1 : env.cancel (b + 1) = false := hbefore 1 (by omega)
    have h2 : env.cancel (b + 2) = false := hbefore 2 (by omega)
    have h3 : env.cancel (b + 3) = false := hbefore 3 (by omega)
    have h4 : env.cancel (b + 4) = false := hbefore 4 (by omega)
    have e3 : b + 2 + 1 = b + 3 := by omega
    have e4 : b + 3 + 1 = b + 4 := by omega
    have e5 : b + 4 + 1 = b + 5 := by omega
    rw [afterScaffold_eq_initStep cfg env b h0 hcr h1 hg,
        initStep_eq_commit cfg env (b + 2) h2 hgi, e3,
        commitStep_eq_remote cfg env (b + 3) h3 hcmt, e4,
        remoteStep_eq_push cfg env (b + 4) h4 har, e5,
        pushStep_cancel_now cfg env (b + 5) hk]
    refine ⟨rfl,
      by simp [RepositoryWorker.cancelledEvent, gitignoreStage_no_terminal,
        initEvents_no_terminal], ?_⟩
    intro op hop
    simp [RepositoryWorker.cancelledEvent] at hop
    rcases hop with hop | hop | hop | hop | hop
    · simp [opsBeforeRel, hop]
    · rcases calls_gitignoreStage cfg env op hop with h | h <;> simp [opsBeforeRel, h]
    · simp [opsBeforeRel, calls_initEvents env op hop]
    · simp [opsBeforeRel, hop]
    · simp [opsBeforeRel, hop]
  · have h0 : env.cancel b = false := by simpa using hbefore 0 (by omega)
    have h1 : env.cancel (b + 1) = false := hbefore 1 (by omega)
    have h2 : env.cancel (b + 2) = false := hbefore 2 (by omega)
    have h3 : env.cancel (b + 3) = false := hbefore 3 (by omega)
    have h4 : env.cancel (b + 4) = false := hbefore 4 (by omega)
    have h5 : env.cancel (b + 5) = false := hbefore 5 (by omega)
    have e3 : b + 2 + 1 = b + 3 := by omega
    have e4 : b + 3 + 1 = b + 4 := by omega
    have e5 : b + 4 + 1 = b + 5 := by omega
    have e6 : b + 5 + 1 = b + 6 := by omega
    rw [afterScaffold_eq_initStep cfg env b h0 hcr h1 hg,
        initStep_eq_commit cfg env (b + 2) h2 hgi, e3,
        commitStep_eq_remote cfg env (b + 3) h3 hcmt, e4,
        remoteStep_eq_push cfg env (b + 4) h4 har, e5,
        pushStep_eq_topics cfg env (b + 5) h5 hp, e6,
        topicsStep_cancel_now cfg env (b + 6) hk]
    refine ⟨rfl,
      by simp [RepositoryWorker.cancelledEvent, gitignoreStage_no_terminal,
        initEvents_no_terminal], ?_⟩
    intro op hop
    simp [RepositoryWorker.cancelledEvent] at hop
    rcases hop with hop | hop | hop | hop | hop | hop
    · simp [opsBeforeRel, hop]
    · rcases calls_gitignoreStage cfg env op hop with h | h <;> simp [opsBeforeRel, h]
    · simp [opsBeforeRel, calls_initEvents env op hop]
    · simp [opsBeforeRel, hop]
    · simp [opsBeforeRel, hop]
    · simp [opsBeforeRel, hop]

/-- Cancellation first observed at poll `k` of a run whose external
operations all succeed: the run emits the single cancelled terminal result
and invokes no pipeline operation guarded by poll `k` or any later poll. -/
theorem run_cancel_first_at (cfg : Config) (env : Env) (k : Nat)
    (hst : StepsOk env) (hbefore : ∀ j, j < k → env.cancel j = false)
    (hk : env.cancel k = true) (hrange : k ≤ pollBase cfg + 6) :
    terminalEvents (RepositoryWorker.run cfg env) =
      [RepositoryWorker.cancelledEvent] ∧
    (∀ op i, pollOf cfg op = some i → k ≤ i →
       Event.call op ∉ RepositoryWorker.run cfg env) := by
  obtain ⟨hmk, hch, hsf, hcr, hcg, hfg, hgi, hcmt, har, hp, hcb⟩ := hst
  rcases Nat.eq_zero_or_pos k with hk0 | hkpos
  · subst hk0
    have hrun : RepositoryWorker.run cfg env = [RepositoryWorker.cancelledEvent] := by
      unfold RepositoryWorker.run
      simp [hk]
    rw [hrun]
    refine ⟨by simp [RepositoryWorker.cancelledEvent], ?_⟩
    intro op i _ _
    simp [RepositoryWorker.cancelledEvent]
  · have h0 : env.cancel 0 = false := hbefore 0 hkpos
    rcases hcs : cfg.create_scaffold with _ | _
    · -- no scaffold step: the pipeline base poll is 1
      have hbase : pollBase cfg = 1 := by simp [pollBase, hcs]
      have hAS := afterScaffold_cancel_at cfg env 1 (k - 1) hcr hcg hfg hgi hcmt har hp
        (fun j hj => by
          have := hbefore (1 + j) (by omega)
          simpa [Nat.add_comm] using this)
        (by
          have e : 1 + (k - 1) = k := by omega
          rw [e]
          exact hk)
        (by omega)
      have hIB : RepositoryWorker.innerBody cfg env =
          RepositoryWorker.afterScaffold cfg env 1 := by
        unfold RepositoryWorker.innerBody
        simp [hcs]
      have hrun := run_eq_inner cfg env h0 hmk hch hcb (by rw [hIB]; exact hAS.1)
      rw [hrun, hIB]
      refine ⟨by simp [hAS.2.1, preRun_no_terminal], ?_⟩
      intro op i hpoll hki hop
      simp at hop
      rcases hop with hop | hop | hop
      · rcases calls_preRun env op hop with h | h <;> simp [h, pollOf] at hpoll
      · have h1 := hAS.2.2 op hop
        have h2 := pollOf_opsBeforeRel cfg (k - 1) (by omega) op h1 i hpoll
        rw [hbase] at h2
        omega
      · simp [hop, pollOf] at hpoll
    · -- scaffold step present: poll 1 guards it, the pipeline base poll is 2
      have hbase : pollBase cfg = 2 := by simp [pollBase, hcs]
      rcases Nat.eq_or_lt_of_le hkpos with hk1 | hk2
      · -- k = 1: cancelled at the scaffold poll
        have hk1' : k = 1 := hk1.symm
        subst hk1'
        have hIB : RepositoryWorker.innerBody cfg env =
            ([RepositoryWorker.cancelledEvent], none) := by
          unfold RepositoryWorker.innerBody
          simp [hcs, hk]
        have hrun := run_eq_inner cfg env h0 hmk hch hcb (by rw [hIB])
        rw [hrun, hIB]
        refine ⟨by simp [RepositoryWorker.cancelledEvent, preRun_no_terminal], ?_⟩
        intro op i hpoll hki hop
        simp [RepositoryWorker.cancelledEvent] at hop
        rcases hop with hop | hop
        · rcases calls_preRun env op hop with h | h <;> simp [h, pollOf] at hpoll
        · simp [hop, pollOf] at hpoll
      · -- k ≥ 2: cancelled inside the pipeline after the scaffold step
        have h1 : env.cancel 1 = false := hbefore 1 hk2
        have hAS := afterScaffold_cancel_at cfg env 2 (k - 2) hcr hcg hfg hgi hcmt har hp
          (fun j hj => by
            have := hbefore (2 + j) (by omega)
            simpa [Nat.add_comm] using this)
          (by
            have e : 2 + (k - 2) = k := by omega
            rw [e]
            exact hk)
          (by omega)
        have hIB : RepositoryWorker.innerBody cfg env =
            ([Event.progress "Creating project scaffold...", Event.call Op.scaffoldOp] ++
               (RepositoryWorker.afterScaffold cfg env 2).1,
             (RepositoryWorker.afterScaffold cfg env 2).2) := by
          unfold RepositoryWorker.innerBody
          simp [hcs, h1, hsf]
        have hrun := run_eq_inner cfg env h0 hmk hch hcb (by rw [hIB]; exact hAS.1)
        rw [hrun, hIB]
        refine ⟨by simp [hAS.2.1, preRun_no_terminal], ?_⟩
        intro op i hpoll hki hop
        simp at hop
        rcases hop with hop | hop | hop | hop
        · rcases calls_preRun env op hop with h | h <;> simp [h, pollOf] at hpoll
        · subst hop
          simp [pollOf, hcs] at hpoll
          omega
        · have hmem := hAS.2.2 op hop
          have h2 := pollOf_opsBeforeRel cfg (k - 2) (by omega) op hmem i hpoll
          rw [hbase] at h2
          omega
        · simp [hop, pollOf] at hpoll

/-- The environment of a run cancelled before it starts. -/
def envCancelNow : Env := { envAllOk with cancel := fun _ => true }

/-- C4 counterexample: when the cancellation flag is set, the emitted
terminal message is "Operation cancelled", not the message "cancelled"
stated by the claim. -/
theorem c4_cancel_message_counterexample :
    RepositoryWorker.run cfgDemo envCancelNow =
      [Event.finished false "Operation cancelled"] ∧
    Event.finished false "cancelled" ∉ RepositoryWorker.run cfgDemo envCancelNow := by
  constructor <;> decide

/-- C4 amended: the cancellation flag is polled before every step; at
whichever poll it is first seen set, the run emits the single terminal
result `(false, "Operation cancelled")` and invokes no step guarded by
that or any later poll, with no cleanup of prior artifacts. In
particular, a flag already set at the first poll yields that terminal
emission and nothing else; and a flag set right after the scaffold step
completes halts the run, never attempts the hosted-repository creation,
and performs no operation beyond the scaffold work and the
working-directory bookkeeping. -/
theorem c4_cancellation_halts_pipeline (cfg : Config) (env : Env) :
    (env.cancel 0 = true →
       RepositoryWorker.run cfg env = [RepositoryWorker.cancelledEvent]) ∧
    (cfg.create_scaffold = true → env.cancel 0 = false → env.cancel 1 = false →
     env.cancel 2 = true → env.mkdirs = ExcOut.ok → env.chdirIn = ExcOut.ok →
     env.scaffold = ExcOut.ok → env.chdirBack = ExcOut.ok →
       Event.call Op.scaffoldOp ∈ RepositoryWorker.run cfg env ∧
       Event.call Op.createRepoOp ∉ RepositoryWorker.run cfg env ∧
       terminalEvents (RepositoryWorker.run cfg env) =
         [Event.finished false "Operation cancelled"] ∧
       (∀ op, Event.call op ∈ RepositoryWorker.run cfg env →
          op = Op.mkdirsOp ∨ op = Op.chdirOp ∨ op = Op.scaffoldOp ∨
            op = Op.chdirBackOp)) ∧
    (∀ k, StepsOk env → (∀ j, j < k → env.cancel j = false) →
     env.cancel k = true → k ≤ pollBase cfg + 6 →
       terminalEvents (RepositoryWorker.run cfg env) =
         [Event.finished false "Operation cancelled"] ∧
       (∀ op i, pollOf cfg op = some i → k ≤ i →
          Event.call op ∉ RepositoryWorker.run cfg env)) := by
  refine ⟨?_, ?_, ?_⟩
  · intro h0
    unfold RepositoryWorker.run
    simp [h0]
  · intro hsc h0 h1 h2 hmk hch hsf hcb
    have hrun : RepositoryWorker.run cfg env =
        (if env.locExists then [] else [Event.call Op.mkdirsOp]) ++
          [Event.call Op.chdirOp, Event.progress "Creating project scaffold...",
           Event.call Op.scaffoldOp, RepositoryWorker.cancelledEvent,
           Event.call Op.chdirBackOp] := by
      unfold RepositoryWorker.run RepositoryWorker.innerBody RepositoryWorker.afterScaffold
      rcases hloc : env.locExists with _ | _ <;>
        simp [h0, h1, h2, hsc, hmk, hch, hsf, hcb, hloc]
    rw [hrun]
    rcases hloc : env.locExists with _ | _ <;>
      simp [RepositoryWorker.cancelledEvent]
  · intro k hst hbefore hk hrange
    exact run_cancel_first_at cfg env k hst hbefore hk hrange

/-- The environment of a run cancelled right after the scaffold step. -/
def envCancelAfterScaffold : Env :=
  { envAllOk with cancel := fun k => decide (2 ≤ k) }

/-- The environment of a run cancelled right before the push step
(first set at poll 7 of a scaffold-creating run). -/
def envCancelBeforePush : Env :=
  { envAllOk with cancel := fun k => decide (7 ≤ k) }

theorem stepsOk_envCancelBeforePush : StepsOk envCancelBeforePush :=
  ⟨rfl, rfl, rfl, rfl, rfl, rfl, rfl, rfl, rfl, rfl, rfl⟩

/-- Witness for C4 at concrete inputs. -/
theorem c4_cancellation_halts_pipeline_witness :
    RepositoryWorker.run cfgDemo envCancelNow = [RepositoryWorker.cancelledEvent] ∧
    (Event.call Op.scaffoldOp ∈ RepositoryWorker.run cfgDemo envCancelAfterScaffold ∧
     Event.call Op.createRepoOp ∉ RepositoryWorker.run cfgDemo envCancelAfterScaffold ∧
     terminalEvents (RepositoryWorker.run cfgDemo envCancelAfterScaffold) =
       [Event.finished false "Operation cancelled"] ∧
     (∀ op, Event.call op ∈ RepositoryWorker.run cfgDemo envCancelAfterScaffold →
        op = Op.mkdirsOp ∨ op = Op.chdirOp ∨ op = Op.scaffoldOp ∨
          op = Op.chdirBackOp)) ∧
    (terminalEvents (RepositoryWorker.run cfgDemo envCancelBeforePush) =
       [Event.finished false "Operation cancelled"] ∧
     (∀ op i, pollOf cfgDemo op = some i → 7 ≤ i →
        Event.call op ∉ RepositoryWorker.run cfgDemo envCancelBeforePush)) :=
  ⟨(c4_cancellation_halts_pipeline cfgDemo envCancelNow).1 rfl,
   (c4_cancellation_halts_pipeline cfgDemo envCancelAfterScaffold).2.1 rfl (by decide)
     (by decide) (by decide) rfl rfl rfl rfl,
   (c4_cancellation_halts_pipeline cfgDemo envCancelBeforePush).2.2 7
     stepsOk_envCancelBeforePush
     (by
       intro j hj
       simp only [envCancelBeforePush]
       rw [decide_eq_false]
       omega)
     (by decide) (by decide)⟩

/-- C5: when `git remote add` fails with a stderr reporting that the
remote already exists, `add_remote` falls back to `git remote set-url`,
returning `true` on fallback success and `false` on a fallback
`CalledProcessError` (while a missing git binary during the fallback
escapes the function); any other remote-add failure (other stderr, or a
missing git binary on the add) returns `false` without a fallback. -/
theorem c5_add_remote_fallback (u r t s : String) (env : GitOperations.RemoteEnv) :
    (env.addCmd = CmdOut.err s → strContainsSub "already exists" (strToLower s) = true →
       (GitOperations.add_remote u r t env).2 =
         [GitOperations.GitCall.remoteAdd (GitOperations.remoteUrl u r t),
          GitOperations.GitCall.remoteSetUrl (GitOperations.remoteUrl u r t)] ∧
       (∀ s2, env.setUrlCmd = CmdOut.ok s2 →
          (GitOperations.add_remote u r t env).1 = Except.ok true) ∧
       (∀ s2, env.setUrlCmd = CmdOut.err s2 →
          (GitOperations.add_remote u r t env).1 = Except.ok false) ∧
       (env.setUrlCmd = CmdOut.fnf →
          (GitOperations.add_remote u r t env).1 =
            Except.error "FileNotFoundError: git")) ∧
    (env.addCmd = CmdOut.err s → strContainsSub "already exists" (strToLower s) = false →
       GitOperations.add_remote u r t env =
         (Except.ok false,
          [GitOperations.GitCall.remoteAdd (GitOperations.remoteUrl u r t)])) ∧
    (env.addCmd = CmdOut.fnf →
       GitOperations.add_remote u r t env =
         (Except.ok false,
          [GitOperations.GitCall.remoteAdd (GitOperations.remoteUrl u r t)])) := by
  refine ⟨?_, ?_, ?_⟩
  · intro ha hs
    unfold GitOperations.add_remote
    rcases env.setUrlCmd with _ | _ | _ <;> simp [ha, hs]
  · intro ha hs
    unfold GitOperations.add_remote
    simp [ha, hs]
  · intro ha
    unfold GitOperations.add_remote
    simp [ha]

/-- A remote-add failure whose stderr reports an existing remote. -/
def remoteEnvExists : GitOperations.RemoteEnv :=
  { addCmd := CmdOut.err "error: remote origin already exists."
    setUrlCmd := CmdOut.ok "" }

/-- A remote-add failure with an unrelated stderr. -/
def remoteEnvOther : GitOperations.RemoteEnv :=
  { addCmd := CmdOut.err "fatal: not a git repository"
    setUrlCmd := CmdOut.ok "" }

/-- A remote-add attempt with git missing from the PATH. -/
def remoteEnvNoGit : GitOperations.RemoteEnv :=
  { addCmd := CmdOut.fnf
    setUrlCmd := CmdOut.ok "" }

/-- A remote-add failure reporting an existing remote, with git then
missing when the set-url fallback runs. -/
def remoteEnvFallbackNoGit : GitOperations.RemoteEnv :=
  { addCmd := CmdOut.err "error: remote origin already exists."
    setUrlCmd := CmdOut.fnf }

/-- Witness for C5 at concrete inputs. -/
theorem c5_add_remote_fallback_witness :
    (GitOperations.add_remote "alice" "demo-project" "https" remoteEnvExists).2 =
      [GitOperations.GitCall.remoteAdd (GitOperations.remoteUrl "alice" "demo-project" "https"),
       GitOperations.GitCall.remoteSetUrl
         (GitOperations.remoteUrl "alice" "demo-project" "https")] ∧
    (GitOperations.add_remote "alice" "demo-project" "https" remoteEnvExists).1 =
      Except.ok true ∧
    (GitOperations.add_remote "alice" "demo-project" "https" remoteEnvFallbackNoGit).1 =
      Except.error "FileNotFoundError: git" ∧
    GitOperations.add_remote "alice" "demo-project" "https" remoteEnvOther =
      (Except.ok false,
       [GitOperations.GitCall.remoteAdd
          (GitOperations.remoteUrl "alice" "demo-project" "https")]) ∧
    GitOperations.add_remote "alice" "demo-project" "https" remoteEnvNoGit =
      (Except.ok false,
       [GitOperations.GitCall.remoteAdd
          (GitOperations.remoteUrl "alice" "demo-project" "https")]) :=
  ⟨((c5_add_remote_fallback "alice" "demo-project" "https"
      "error: remote origin already exists." remoteEnvExists).1 rfl (by decide)).1,
   ((c5_add_remote_fallback "alice" "demo-project" "https"
      "error: remote origin already exists." remoteEnvExists).1 rfl (by decide)).2.1 "" rfl,
   ((c5_add_remote_fallback "alice" "demo-project" "https"
      "error: remote origin already exists." remoteEnvFallbackNoGit).1 rfl
        (by decide)).2.2.2 rfl,
   (c5_add_remote_fallback "alice" "demo-project" "https"
      "fatal: not a git repository" remoteEnvOther).2.1 rfl (by decide),
   (c5_add_remote_fallback "alice" "demo-project" "https"
      "" remoteEnvNoGit).2.2 rfl⟩

/-- C6 counterexample: a first fetch that succeeds with an empty template
list makes `get_gitignore_templates` return the empty list even though the
fetch did not fail, refuting "an empty list is returned only when the
fetch fails and no cache exists". -/
theorem c6_empty_on_successful_fetch_counterexample :
    (GitHubAPI.get_gitignore_templates (GitHubAPI.ApiState.mk none)
        (GitHubAPI.FetchOut.ok [])).1 = [] ∧
    GitHubAPI.FetchOut.ok ([] : List String) ≠ GitHubAPI.FetchOut.failure := by
  constructor <;> decide

/-- C6 amended: the first successful fetch populates the cache; a
populated cache is returned unchanged on every later call whatever the
fetch outcome would be; and the empty list is returned only when the fetch
fails with no cache present, or when the fetched or cached list is itself
empty. -/
theorem c6_template_cache_semantics (st : GitHubAPI.ApiState) (o : GitHubAPI.FetchOut) :
    (∀ ts, st.gitignoreTemplatesCache = some ts →
       GitHubAPI.get_gitignore_templates st o = (ts, st)) ∧
    (∀ ts, st.gitignoreTemplatesCache = none → o = GitHubAPI.FetchOut.ok ts →
       GitHubAPI.get_gitignore_templates st o =
         (ts, GitHubAPI.ApiState.mk (some ts))) ∧
    ((GitHubAPI.get_gitignore_templates st o).1 = [] ↔
       st.gitignoreTemplatesCache = some [] ∨
       (st.gitignoreTemplatesCache = none ∧
         (o = GitHubAPI.FetchOut.failure ∨ o = GitHubAPI.FetchOut.ok []))) := by
  rcases st with ⟨_ | ts⟩ <;> rcases o with ts2 | _ <;>
    simp [GitHubAPI.get_gitignore_templates]

/-- Witness for C6 at concrete inputs: a populated cache survives a failed
fetch, and a first successful fetch populates the cache. -/
theorem c6_template_cache_semantics_witness :
    GitHubAPI.get_gitignore_templates (GitHubAPI.ApiState.mk (some ["Python"]))
        GitHubAPI.FetchOut.failure =
      (["Python"], GitHubAPI.ApiState.mk (some ["Python"])) ∧
    GitHubAPI.get_gitignore_templates (GitHubAPI.ApiState.mk none)
        (GitHubAPI.FetchOut.ok ["Go", "Python"]) =
      (["Go", "Python"], GitHubAPI.ApiState.mk (some ["Go", "Python"])) :=
  ⟨(c6_template_cache_semantics (GitHubAPI.ApiState.mk (some ["Python"]))
      GitHubAPI.FetchOut.failure).1 ["Python"] rfl,
   (c6_template_cache_semantics (GitHubAPI.ApiState.mk none)
      (GitHubAPI.FetchOut.ok ["Go", "Python"])).2.1 ["Go", "Python"] rfl rfl⟩

/-- C8: `get_current_branch` maps a successful detection to the trimmed
stdout and a `CalledProcessError` to `"main"`, but a missing git binary
(`FileNotFoundError`) is not caught and escapes the function instead of
yielding `"main"`. -/
theorem c8_branch_detection_behavior :
    (∀ s, GitOperations.get_current_branch (CmdOut.ok s) = Except.ok s.trim) ∧
    (∀ s, GitOperations.get_current_branch (CmdOut.err s) = Except.ok "main") ∧
    GitOperations.get_current_branch CmdOut.fnf =
      Except.error "FileNotFoundError: git" :=
  ⟨fun _ => rfl, fun _ => rfl, rfl⟩

/-- C10: `set_topics` with an empty topics list returns `True` immediately
and never invokes the external `gh` command, whatever that command would
have returned. -/
theorem c10_set_topics_empty_short_circuits (u r : String) (cmd : CmdOut) :
    GitHubAPI.set_topics u r [] cmd = (true, false) := rfl

/-- C9: when the configured repository location does not exist at workflow
start, the worker creates it (makedirs with parents) and the run proceeds to
the single success emission rather than failing. -/
theorem c9_missing_location_created (cfg : Config) (env : Env)
    (h : OkSteps env) (hloc : env.locExists = false) :
    Event.call Op.mkdirsOp ∈ RepositoryWorker.run cfg env ∧
    terminalEvents (RepositoryWorker.run cfg env) =
      [Event.finished true (RepositoryWorker.successMessage cfg)] := by
  refine ⟨?_, run_allOk_terminal cfg env h⟩
  unfold RepositoryWorker.run
  simp [h.cancel_false, hloc, h.mkdirs_ok, h.chdirIn_ok, h.chdirBack_ok]

/-- The all-success environment with a missing repository location. -/
def envNoLoc : Env := { envAllOk with locExists := false }

theorem okSteps_envNoLoc : OkSteps envNoLoc :=
  ⟨fun _ => rfl, rfl, rfl, rfl, rfl, rfl, rfl, rfl, rfl, rfl, rfl, rfl⟩

/-- Witness for C9 at a concrete input. -/
theorem c9_missing_location_created_witness :
    Event.call Op.mkdirsOp ∈ RepositoryWorker.run cfgDemo envNoLoc ∧
    terminalEvents (RepositoryWorker.run cfgDemo envNoLoc) =
      [Event.finished true (RepositoryWorker.successMessage cfgDemo)] :=
  c9_missing_location_created cfgDemo envNoLoc okSteps_envNoLoc rfl
